import Mathlib

/-!
Verification development for the serverless-rest-api repository.

The repository contains two Python source files implementing the same CRUD
contract over a DynamoDB table of "todo" items:

* `src/app/app.py`     — a Flask application (long-running HTTP server),
  with bearer-token authentication (`require_auth`) verified against a
  Cognito JWKS endpoint;
* `src/app/handler.py` — an AWS Lambda handler (stateless per-request),
  with no authentication layer of its own.

This file shallowly embeds both programs.  Pure Python functions become Lean
functions; the DynamoDB table becomes an explicit list of items threaded
through the handlers; external collaborators (the JWKS endpoint, `jwt.decode`,
`uuid4`, the wall clock) become explicit parameters or oracle functions.
Python `dict`/`list`/`str` dynamic behaviour that the code relies on
(truthiness, `in`, `.get`, exceptions on wrong types) is modelled explicitly.
-/

/-! ## Python string semantics -/

/-- Whitespace characters recognised by Python's `str.strip()` / `\s`
(restricted to the ASCII range; the inputs of interest are ASCII). -/
def pyWsChar (c : Char) : Bool :=
  c = ' ' || c = '\t' || c = '\n' || c = '\r' || c = '\x0b' || c = '\x0c'

/-- Python `str.strip()`: removes leading and trailing whitespace. -/
def pyStrip (s : String) : String :=
  ⟨((s.toList.dropWhile pyWsChar).reverse.dropWhile pyWsChar).reverse⟩

/-- Python falsy-or-else on strings: `a or b` where `a : str`. -/
def pyOrS (a b : String) : String := if a = "" then b else a

/-- Python falsy-or-else where the left side is an optional string
(`None` and `""` are both falsy). -/
def pyOrOS (a b : Option String) : Option String :=
  match a with
  | some s => if s = "" then b else some s
  | none => b

/-- Digit-run accumulator for `pyInt`: Python `int()` digits may be separated
by single underscores (`"1_000"`), never leading, trailing or doubled. -/
def pyDigits : Nat → List Char → Option Nat
  | acc, [] => some acc
  | _acc, ['_'] => none
  | acc, '_' :: c :: rest =>
      if c.isDigit then pyDigits (acc * 10 + (c.toNat - 48)) rest else none
  | acc, c :: rest =>
      if c.isDigit then pyDigits (acc * 10 + (c.toNat - 48)) rest else none

/-- Magnitude part of `pyInt`: a non-empty digit run (first char a digit). -/
def pyDigitsStart : List Char → Option Nat
  | [] => none
  | c :: rest => if c.isDigit then pyDigits (c.toNat - 48) rest else none

/-- Python `int(s)` on a string: optional surrounding whitespace, optional
sign, decimal digits with optional single separating underscores.
Returns `none` where Python raises `ValueError`. -/
def pyInt (s : String) : Option Int :=
  match (pyStrip s).toList with
  | '+' :: rest => (pyDigitsStart rest).map (fun n => (n : Int))
  | '-' :: rest => (pyDigitsStart rest).map (fun n => -(n : Int))
  | rest => (pyDigitsStart rest).map (fun n => (n : Int))

/-- Substring test, as in Python `needle in haystack` for strings. -/
def listHasSub (needle : List Char) : List Char → Bool
  | [] => needle.isEmpty
  | c :: rest => needle.isPrefixOf (c :: rest) || listHasSub needle rest

/-- Python slicing `s[n:]` on strings. -/
def strDrop (s : String) (n : Nat) : String := ⟨s.data.drop n⟩

/-- Python `s.startswith(p)`. -/
def strStarts (p s : String) : Bool := p.data.isPrefixOf s.data

/-- Python `s.upper()` (ASCII range, which covers the HTTP methods seen). -/
def strUpper (s : String) : String := ⟨s.data.map Char.toUpper⟩

/-- Python `s.lower()` (ASCII range), for the case-insensitive regex. -/
def strLower (s : String) : String := ⟨s.data.map Char.toLower⟩

/-- Python `s.replace(pat, rep)` for a single-character pattern: replaces
every occurrence. -/
def replaceChar (pat : Char) (rep : List Char) : List Char → List Char
  | [] => []
  | c :: rest =>
      if c = pat then rep ++ replaceChar pat rep rest
      else c :: replaceChar pat rep rest

/-- First-space split, as in Python `s.split(" ", 1)` when a space exists. -/
def splitFirstSpace (s : String) : Option (String × String) :=
  let cs := s.toList
  if cs.contains ' ' then
    some (⟨cs.takeWhile (· ≠ ' ')⟩, ⟨(cs.dropWhile (· ≠ ' ')).drop 1⟩)
  else none

/-! ## JSON values

Values produced by `json.loads` on a well-formed document.  Numbers are
modelled as integers (no claim touches fractional numbers).  Objects carry
their key/value pairs; `json.loads` produces dicts, whose keys are unique. -/

inductive Json where
  | null
  | bool (b : Bool)
  | num (n : Int)
  | str (s : String)
  | arr (elems : List Json)
  | obj (fields : List (String × Json))

/-- Lookup in a parsed JSON object, as Python `dict.get` / `dict[k]`. -/
def dictGet (kvs : List (String × Json)) (k : String) : Option Json :=
  List.lookup k kvs

/-- Key-membership in a parsed JSON object, as Python `k in dict`. -/
def dictHas (kvs : List (String × Json)) (k : String) : Bool :=
  (List.lookup k kvs).isSome

/-- Python truthiness of a JSON-decoded value. -/
def Json.falsy : Json → Bool
  | .null => true
  | .bool b => !b
  | .num n => n = 0
  | .str s => s = ""
  | .arr xs => xs.isEmpty
  | .obj kvs => kvs.isEmpty

/-- Python `body or {}` as applied to a JSON-decoded value. -/
def pyBodyOr (v : Json) : Json := if v.falsy then Json.obj [] else v

/-- Python `(body or {}).get(k)`.  Succeeds on dicts; any other truthy value
has no `.get` attribute, so Python raises `AttributeError` (`.error ()`). -/
def pyDictGet (v : Json) (k : String) : Except Unit (Option Json) :=
  match pyBodyOr v with
  | .obj kvs => .ok (dictGet kvs k)
  | _ => .error ()

/-- String equality test against a JSON element, for Python `==` inside
`x in list` (a Python `str` equals only an equal `str`). -/
def Json.isStrEq (k : String) : Json → Bool
  | .str s => s = k
  | _ => false

/-- Python `k in v` for a string key `k`: key membership on dicts, element
membership on lists, substring test on strings; `TypeError` otherwise. -/
def pyIn (k : String) (v : Json) : Except Unit Bool :=
  match v with
  | .obj kvs => .ok (dictHas kvs k)
  | .arr xs => .ok (xs.any (Json.isStrEq k))
  | .str s => .ok (listHasSub k.toList s.toList)
  | _ => .error ()

/-- Python `v[k]` for a string key `k`: dict indexing (`KeyError` when the
key is absent); `TypeError` on every non-dict value. -/
def pySubscript (v : Json) (k : String) : Except Unit Json :=
  match v with
  | .obj kvs =>
      match dictGet kvs k with
      | some x => .ok x
      | none => .error ()
  | _ => .error ()

/-! ## Due-date validation

Both files contain a line-for-line identical `validate_due_date`: `None` is
valid, otherwise the value must be a string that, after replacing `"Z"` with
`"+00:00"`, parses with `datetime.fromisoformat`.  The stdlib call is
modelled by `fromIsoFormatOk` on the RFC3339/ISO-8601 subset exercised here:
`YYYY-MM-DD`, optionally a separator character and
`HH[:MM[:SS[.fff or .ffffff]]]`, optionally a `+HH:MM` / `-HH:MM[:SS]`
offset. -/

/-- Decimal value of a digit run, `none` if a non-digit occurs. -/
def digitsVal (cs : List Char) : Option Nat :=
  if cs.all Char.isDigit then
    some (cs.foldl (fun acc c => acc * 10 + (c.toNat - 48)) 0)
  else none

/-- Interprets exactly `w` characters as a decimal number. -/
def fixedNum (cs : List Char) (w : Nat) : Option Nat :=
  if cs.length = w then digitsVal cs else none

/-- Day count of a month, with the Gregorian leap rule (as `datetime`). -/
def daysInMonth (y m : Nat) : Nat :=
  if m = 2 then
    if y % 4 = 0 && (y % 100 ≠ 0 || y % 400 = 0) then 29 else 28
  else if m = 4 || m = 6 || m = 9 || m = 11 then 30
  else 31

/-- Validity of a `YYYY-MM-DD` date string (as a character list). -/
def isoDateOk (cs : List Char) : Bool :=
  match cs with
  | [y1, y2, y3, y4, '-', m1, m2, '-', d1, d2] =>
      match fixedNum [y1, y2, y3, y4] 4, fixedNum [m1, m2] 2, fixedNum [d1, d2] 2 with
      | some y, some m, some d =>
          1 ≤ y && 1 ≤ m && m ≤ 12 && 1 ≤ d && d ≤ daysInMonth y m
      | _, _, _ => false
  | _ => false

/-- Validity of a fraction suffix: empty, or a dot and 3 or 6 digits. -/
def isoFracOk (cs : List Char) : Bool :=
  match cs with
  | [] => true
  | '.' :: ds => (ds.length = 3 || ds.length = 6) && (digitsVal ds).isSome
  | _ => false

/-- Validity of a clock string `HH[:MM[:SS[.frac]]]` with in-range fields. -/
def isoClockOk (cs : List Char) : Bool :=
  match cs with
  | [h1, h2] =>
      match fixedNum [h1, h2] 2 with
      | some h => h ≤ 23
      | none => false
  | h1 :: h2 :: ':' :: m1 :: m2 :: rest =>
      match fixedNum [h1, h2] 2, fixedNum [m1, m2] 2 with
      | some h, some m =>
          h ≤ 23 && m ≤ 59 &&
          (match rest with
           | [] => true
           | ':' :: s1 :: s2 :: frac =>
               (match fixedNum [s1, s2] 2 with
                | some s => s ≤ 59 && isoFracOk frac
                | none => false)
           | _ => false)
      | _, _ => false
  | _ => false

/-- Splits a time string at the first `'+'` or `'-'` (the UTC-offset mark). -/
def splitAtSign (acc : List Char) : List Char → List Char × Option (List Char)
  | [] => (acc.reverse, none)
  | c :: rest =>
      if c = '+' || c = '-' then (acc.reverse, some rest)
      else splitAtSign (c :: acc) rest

/-- Validity of the time-of-day part, including an optional UTC offset. -/
def isoTimeOk (cs : List Char) : Bool :=
  match splitAtSign [] cs with
  | (base, none) => isoClockOk base
  | (base, some off) => isoClockOk base && isoClockOk off

/-- Validity under `datetime.fromisoformat` (modelled subset): a valid date,
alone, or followed by one separator character and a valid time. -/
def fromIsoFormatOk (s : String) : Bool :=
  let cs := s.toList
  if cs.length ≤ 10 then isoDateOk cs
  else isoDateOk (cs.take 10) && isoTimeOk (cs.drop 11)

/-- Embeds `validate_due_date` (identical in `app.py` and `handler.py`).
The argument is the Python value of `dueDate`: `none` for an absent key and
`some .null` for a JSON `null` both reach the `value is None` branch; a
non-string value raises inside `try` (no `.replace`), yielding `False`. -/
def validate_due_date : Option Json → Bool
  | none => true
  | some .null => true
  | some (.str s) => fromIsoFormatOk ⟨replaceChar 'Z' "+00:00".data s.data⟩
  | some _ => false

/-- DynamoDB value stored for a validated `dueDate` argument: the string
itself, or the NULL attribute (modelled `none`) for `None`/absent. -/
def dueVal : Option Json → Option String
  | some (.str s) => some s
  | _ => none

/-! ## Content-type check

Both files apply the identical regex
`^application/json(?:\s*;.*)?$` (case-insensitive) to the content type. -/

/-- Tail of the regex after the literal: whitespace then `';'` then anything. -/
def ctSemi : List Char → Bool
  | [] => false
  | c :: rest => if c = ';' then true else if pyWsChar c then ctSemi rest else false

/-- Match of `JSON_CT_RE` against a content-type header value. -/
def ctMatches (ct : String) : Bool :=
  let l := (strLower ct).toList
  let p := "application/json".toList
  p.isPrefixOf l &&
    (match l.drop p.length with
     | [] => true
     | rest => ctSemi rest)

/-! ## Shared constants (identical in both files) -/

def DEFAULT_PAGE_SIZE : Nat := 20
def MAX_TITLE_LEN : Nat := 140

/-! ## Items and the DynamoDB table

A stored item.  Timestamps are modelled as natural numbers standing for the
instants rendered by `now_iso()` (the RFC3339 rendering of instants is
injective and order-preserving, so `Nat` faithfully carries equality and
order of timestamps).  The owner fields are written only by the Flask
variant; `none` models an absent attribute. -/

structure Item where
  id : String
  title : String
  dueDate : Option String := none
  createdAt : Nat
  updatedAt : Nat
  ownerSub : Option String := none
  ownerUsername : Option String := none
deriving Repr, DecidableEq

/-- The DynamoDB table: a flat collection keyed by `id`, in scan order. -/
abbrev Store := List Item

/-- Primary-key lookup (`get_item` and the conditional checks). -/
def storeGet (st : Store) (k : String) : Option Item :=
  st.find? (fun it => it.id == k)

/-- Replacement of the item with the given key (the applied `update_item`). -/
def storeReplace (st : Store) (k : String) (it : Item) : Store :=
  st.map (fun x => if x.id == k then it else x)

/-- Removal of the item with the given key (the applied `delete_item`). -/
def storeRemove (st : Store) (k : String) : Store :=
  st.filter (fun x => !(x.id == k))

/-- Items after the `ExclusiveStartKey`, in table scan order. -/
def scanAfter (st : Store) : Option String → Store
  | none => st
  | some c => ((st : List Item).dropWhile (fun it => !(it.id == c))).drop 1

/-- DynamoDB `scan` with `Limit` and an optional exclusive start key:
returns the page and the `LastEvaluatedKey` id when more items remain. -/
def tableScan (st : Store) (limit : Nat) (esk : Option String) :
    List Item × Option String :=
  let rest : List Item := scanAfter st esk
  let page := rest.take limit
  (page, if limit < rest.length then (page.getLast?).map (fun it => it.id) else none)

/-! ## Responses

The JSON payload shapes the two programs produce; serialisation is injective
on these shapes, so responses are compared structurally.  The response
content-type header is outside the model (it is neither a CORS header nor
part of any claim). -/

inductive RBody where
  | empty
  | errBody (code : String) (message : String)
  | health (time : Nat)
  | item (it : Item)
  | page (items : List Item) (nextCursor : Option String)
deriving Repr, DecidableEq

structure Response where
  statusCode : Nat
  headers : List (String × String)
  body : RBody
deriving Repr, DecidableEq

/-- Error code carried by a response, when its body is an error envelope. -/
def Response.errorCode (r : Response) : Option String :=
  match r.body with
  | .errBody c _ => some c
  | _ => none

/-- CORS headers (`CORS_HEADERS` in `handler.py`; `corsify` sets the same
fields in `app.py`), parametrised by the `CORS_ALLOW_ORIGIN` setting. -/
def corsHeaders (origin : Option String) : List (String × String) :=
  [("Access-Control-Allow-Origin", origin.getD "*"),
   ("Access-Control-Allow-Methods", "GET,POST,PUT,DELETE,OPTIONS"),
   ("Access-Control-Allow-Headers", "Content-Type,Authorization"),
   ("Access-Control-Max-Age", "600"),
   ("Vary", "Origin")]

/-- Security headers (`SECURITY_HEADERS` in `handler.py`; `corsify` sets the
same fields in `app.py`). -/
def securityHeaders : List (String × String) :=
  [("X-Content-Type-Options", "nosniff"),
   ("X-Frame-Options", "DENY"),
   ("X-XSS-Protection", "0"),
   ("Referrer-Policy", "no-referrer")]

/-- Full header set attached to every shaped response in both programs. -/
def allHeaders (origin : Option String) : List (String × String) :=
  corsHeaders origin ++ securityHeaders

/-- Raw request body as seen before `json.loads`: absent-or-empty text,
text that fails to parse, or text that parses to a JSON value. -/
inductive RawBody where
  | empty
  | malformed
  | wellFormed (v : Json)

/-! ## Embedding of `src/app/handler.py`

The Lambda event is projected to the keys the code reads.  A key present
with value `null` is not distinguished from an absent key.  Base64 transport
decoding (`isBase64Encoded`) is outside the model: `body` stands for the
decoded body text. -/

namespace Handler

structure Event where
  routeKey : Option String := none
  path : Option String := none
  httpMethod : Option String := none
  rawPath : Option String := none
  stage : Option String := none
  rcMethod : Option String := none
  headers : List (String × String) := []
  body : Option RawBody := none
  queryStringParameters : List (String × String) := []

/-- Case-sensitive header / query lookup, as Python `dict.get`. -/
def dGet (kvs : List (String × String)) (k : String) : Option String :=
  List.lookup k kvs

/-- Embeds `json_response`: merged CORS and security headers, JSON body. -/
def json_response (origin : Option String) (status : Nat) (body : RBody) : Response :=
  { statusCode := status, headers := allHeaders origin, body := body }

/-- Embeds `error`: an error envelope via `json_response` (the optional
`details` attachment is only exercised on backend faults outside the store
model). -/
def err (origin : Option String) (status : Nat) (code message : String) : Response :=
  json_response origin status (RBody.errBody code message)

/-- Embeds `parse_json_body`: content-type must match `JSON_CT_RE`, then the
raw body (absent or empty text replaced by the literal `"{}"`) must parse. -/
def parse_json_body (origin : Option String) (ev : Event) :
    Except Response Json :=
  let ct := (pyOrOS (dGet ev.headers "content-type") (dGet ev.headers "Content-Type")).getD ""
  if ¬ ctMatches ct then
    .error (err origin 400 "INVALID_CONTENT_TYPE" "Content-Type must be application/json")
  else
    match ev.body with
    | none => .ok (Json.obj [])
    | some .empty => .ok (Json.obj [])
    | some .malformed => .error (err origin 400 "INVALID_JSON" "Request body is not valid JSON")
    | some (.wellFormed v) => .ok v

/-- Embeds `get_path_method`: routeKey first, then REST v1 `path` and
`httpMethod`, then `rawPath` minus the stage prefix. -/
def get_path_method (ev : Event) : String × String :=
  match ev.routeKey.bind splitFirstSpace with
  | some (m, p) => (pyOrS p "/", strUpper m)
  | none =>
    if ev.path.isSome && ev.httpMethod.isSome then
      (pyOrS (ev.path.getD "") "/", strUpper (ev.httpMethod.getD ""))
    else
      let path0 := pyOrS (ev.rawPath.getD "") "/"
      let path1 :=
        match ev.stage with
        | some st =>
            if !(st == "") && strStarts ("/" ++ st ++ "/") path0 then
              strDrop path0 (st.length + 1)
            else if !(st == "") && path0 == "/" ++ st then "/"
            else path0
        | none => path0
      (pyOrS path1 "/", strUpper (ev.rcMethod.getD ""))

/-- Embeds `handle_health`. -/
def handle_health (origin : Option String) (clock : Nat) : Response :=
  json_response origin 200 (RBody.health clock)

/-- Embeds `handle_create_todo`.  `clock` is the instant `now_iso()` renders
and `newId` the freshly minted `uuid4`.  `.error ()` marks an uncaught
Python exception (bubbling to `lambda_handler`). -/
def handle_create_todo (origin : Option String) (clock : Nat) (newId : String)
    (ev : Event) (store : Store) : Except Unit (Response × Store) :=
  match parse_json_body origin ev with
  | .error r => .ok (r, store)
  | .ok body =>
    match pyDictGet body "title" with
    | .error _ => .error ()
    | .ok title? =>
      match pyDictGet body "dueDate" with
      | .error _ => .error ()
      | .ok due? =>
        match title? with
        | some (.str s) =>
          if pyStrip s = "" then
            .ok (err origin 400 "MISSING_TITLE" "'title' is required", store)
          else if s.length > MAX_TITLE_LEN then
            .ok (err origin 400 "TITLE_TOO_LONG" "'title' must be <= 140 characters", store)
          else if ¬ validate_due_date due? then
            .ok (err origin 400 "INVALID_DUE_DATE" "'dueDate' must be RFC3339/ISO-8601", store)
          else
            let item : Item :=
              { id := newId, title := pyStrip s, dueDate := dueVal due?,
                createdAt := clock, updatedAt := clock }
            match storeGet store newId with
            | some _ => .ok (err origin 409 "CONFLICT" "Item already exists (id collision)", store)
            | none => .ok (json_response origin 201 (RBody.item item), store ++ [item])
        | _ => .ok (err origin 400 "MISSING_TITLE" "'title' is required", store)

/-- Embeds `handle_get_todo`. -/
def handle_get_todo (origin : Option String) (todoId : String) (store : Store) : Response :=
  match storeGet store todoId with
  | none => err origin 404 "NOT_FOUND" "Todo not found"
  | some it => json_response origin 200 (RBody.item it)

/-- Embeds `handle_list_todos`: `limit` defaults to 20 when the parameter is
falsy, otherwise `int()` then clamping by `max(1, min(100, _))`;
a falsy `cursor` sends no `ExclusiveStartKey`. -/
def handle_list_todos (origin : Option String) (ev : Event) (store : Store) : Response :=
  let qs := ev.queryStringParameters
  let cursor := dGet qs "cursor"
  let limit_raw := dGet qs "limit"
  let run : Nat → Response := fun limit =>
    let esk := match cursor with
      | some c => if c = "" then none else some c
      | none => none
    let res := tableScan store limit esk
    json_response origin 200 (RBody.page res.1 res.2)
  match limit_raw with
  | some s =>
      if s = "" then run DEFAULT_PAGE_SIZE
      else
        match pyInt s with
        | some n => run (max 1 (min 100 n)).toNat
        | none => err origin 400 "INVALID_LIMIT" "'limit' must be an integer between 1 and 100"
  | none => run DEFAULT_PAGE_SIZE

/-- Embeds `handle_update_todo`.  The accumulated `update_expr_parts` /
`expr_attr_vals` pairs are modelled by the two options `updTitle` and
`updDue` (the latter present when `"dueDate" in body`, carrying the stored
attribute value); `updatedAt` is always also set.  The write is conditioned
on `attribute_exists(id)`. -/
def handle_update_todo (origin : Option String) (clock : Nat) (ev : Event)
    (todoId : String) (store : Store) : Except Unit (Response × Store) :=
  match parse_json_body origin ev with
  | .error r => .ok (r, store)
  | .ok body0 =>
    let body := pyBodyOr body0
    match pyIn "title" body with
    | .error _ => .error ()
    | .ok hasTitle =>
      let titleStep : Except Unit (Except Response (Option String)) :=
        if hasTitle then
          match pySubscript body "title" with
          | .error _ => .error ()
          | .ok (.str s) =>
              if pyStrip s = "" then
                .ok (.error (err origin 400 "INVALID_TITLE" "'title' must be a non-empty string"))
              else if s.length > MAX_TITLE_LEN then
                .ok (.error (err origin 400 "TITLE_TOO_LONG" "'title' must be <= 140 characters"))
              else .ok (.ok (some (pyStrip s)))
          | .ok _ =>
              .ok (.error (err origin 400 "INVALID_TITLE" "'title' must be a non-empty string"))
        else .ok (.ok none)
      match titleStep with
      | .error _ => .error ()
      | .ok (.error r) => .ok (r, store)
      | .ok (.ok updTitle) =>
        match pyIn "dueDate" body with
        | .error _ => .error ()
        | .ok hasDue =>
          let dueStep : Except Unit (Except Response (Option (Option String))) :=
            if hasDue then
              match pySubscript body "dueDate" with
              | .error _ => .error ()
              | .ok d =>
                  if ¬ validate_due_date (some d) then
                    .ok (.error (err origin 400 "INVALID_DUE_DATE" "'dueDate' must be RFC3339/ISO-8601"))
                  else .ok (.ok (some (dueVal (some d))))
            else .ok (.ok none)
          match dueStep with
          | .error _ => .error ()
          | .ok (.error r) => .ok (r, store)
          | .ok (.ok updDue) =>
            if updTitle.isNone && updDue.isNone then
              .ok (err origin 400 "NO_MUTABLE_FIELDS" "No updatable fields provided", store)
            else
              match storeGet store todoId with
              | none => .ok (err origin 404 "NOT_FOUND" "Todo not found", store)
              | some it =>
                let it1 : Item :=
                  { it with
                    title := updTitle.getD it.title,
                    dueDate := updDue.getD it.dueDate,
                    updatedAt := clock }
                .ok (json_response origin 200 (RBody.item it1), storeReplace store todoId it1)

/-- Embeds `handle_delete_todo`: a delete conditioned on
`attribute_exists(id)`, condition failure mapped to 404. -/
def handle_delete_todo (origin : Option String) (todoId : String) (store : Store) :
    Response × Store :=
  match storeGet store todoId with
  | none => (err origin 404 "NOT_FOUND" "Todo not found", store)
  | some _ =>
      ({ statusCode := 204, headers := allHeaders origin, body := RBody.empty },
       storeRemove store todoId)

/-- Python `path.rsplit("/", 1)[-1]`: the substring after the last slash. -/
def lastSegment (p : String) : String :=
  ⟨(p.toList.reverse.takeWhile (· ≠ '/')).reverse⟩

/-- Embeds `lambda_handler`: preflight, health, route dispatch, and the
boundary translation of uncaught exceptions to 500 `INTERNAL_ERROR` (the
`ClientError` catch is not reachable inside the store model, whose only
fault is the condition failure each operation translates itself). -/
def lambda_handler (origin : Option String) (clock : Nat) (newId : String)
    (ev : Event) (store : Store) : Response × Store :=
  let pm := get_path_method ev
  let path := pm.1
  let method := pm.2
  if method = "OPTIONS" then
    ({ statusCode := 204, headers := allHeaders origin, body := RBody.empty }, store)
  else if path = "/health" && method = "GET" then
    (handle_health origin clock, store)
  else
    let routed : Except Unit (Response × Store) :=
      if path = "/todos" && method = "POST" then
        handle_create_todo origin clock newId ev store
      else if path = "/todos" && method = "GET" then
        .ok (handle_list_todos origin ev store, store)
      else if strStarts "/todos/" path then
        let todoId := lastSegment path
        if method = "GET" then .ok (handle_get_todo origin todoId store, store)
        else if method = "PUT" then handle_update_todo origin clock ev todoId store
        else if method = "DELETE" then .ok (handle_delete_todo origin todoId store)
        else .ok (err origin 404 "ROUTE_NOT_FOUND" "Route not found", store)
      else .ok (err origin 404 "ROUTE_NOT_FOUND" "Route not found", store)
    match routed with
    | .ok rs => rs
    | .error _ => (err origin 500 "INTERNAL_ERROR" "Unexpected server error", store)

end Handler

/-! ## Embedding of `src/app/app.py`

The Flask request object is projected to the fields the code reads:
`request.method`, the matched path, `request.headers.get("Authorization")`,
the (case-insensitively looked-up) `Content-Type` value, the raw body, and
the two query parameters.  The PyJWK client plus `jwt.decode` pipeline is an
external collaborator, modelled by an oracle giving the outcome of signature
/ issuer / audience / expiry verification for each token; the reachability
probe `requests.head(COGNITO_JWKS_URL)` is modelled by a flag saying whether
the key endpoint is reachable now. -/

namespace App

structure AppConfig where
  corsOrigin : Option String := none
  audience : Option String := none
  /-- ACCEPTED_TOKEN_USE; env default "access"; `""` is falsy (check skipped). -/
  acceptedTokenUse : String := "access"
  /-- REQUIRED_GROUP; `none` models unset-or-empty (both falsy). -/
  requiredGroup : Option String := none
  /-- JWKS_TTL_SECONDS after `int()` parsing, default 3600. -/
  jwksTtl : Nat := 3600

/-- Embeds `int(os.environ.get("JWKS_TTL_SECONDS", "3600"))`. -/
def jwksTtlOfEnv (e : Option String) : Option Int :=
  pyInt (e.getD "3600")

/-- Claim set of a decoded token, projected to the claims the code reads. -/
structure Claims where
  sub : Option String := none
  username : Option String := none
  cognitoUsername : Option String := none
  tokenUse : Option String := none
  cognitoGroups : List String := []
  groups : List String := []

/-- Outcome of `jwks_client.get_signing_key_from_jwt` plus `jwt.decode`
(signature, issuer, audience, `exp`/`iat` presence and validity):
success with a claim set, `ExpiredSignatureError`, or `InvalidTokenError`. -/
inductive DecodeOutcome where
  | ok (claims : Claims)
  | expired
  | invalid (msg : String)

/-- External authentication world: reachability of the JWKS endpoint now,
and the verification outcome for each presented token. -/
structure AuthEnv where
  fetchOk : Bool
  decode : String → DecodeOutcome

/-- State of the module-level JWKS cache: whether `_jwks_client` is
initialised, and `_jwks_last_init`. -/
structure JwksCache where
  client : Bool := false
  lastInit : Nat := 0
deriving Repr, DecidableEq

/-- Embeds `get_jwks_client`: refresh when the client is missing or the TTL
elapsed; the reachability probe raises `requests.RequestException`
(`.error ()`) before the cache is touched when the endpoint is down. -/
def get_jwks_client (cfg : AppConfig) (env : AuthEnv) (now : Nat)
    (cache : JwksCache) : Except Unit JwksCache :=
  if !cache.client || decide (cfg.jwksTtl + cache.lastInit < now) then
    if env.fetchOk then .ok { client := true, lastInit := now }
    else .error ()
  else .ok cache

/-- Error outcomes of `decode_and_verify` as caught by `require_auth`. -/
inductive AuthErr where
  | jwksFetch
  | expired
  | invalidTok (msg : String)

/-- Embeds `decode_and_verify`: obtain the (possibly refreshed) JWKS client,
verify the token, then enforce `token_use` and the optional required group.
The updated cache is returned alongside the verdict, since the module-level
cache is mutated even when a later step fails. -/
def decode_and_verify (cfg : AppConfig) (env : AuthEnv) (now : Nat)
    (cache : JwksCache) (token : String) : JwksCache × Except AuthErr Claims :=
  match get_jwks_client cfg env now cache with
  | .error _ => (cache, .error .jwksFetch)
  | .ok cache1 =>
    match env.decode token with
    | .expired => (cache1, .error .expired)
    | .invalid m => (cache1, .error (.invalidTok m))
    | .ok claims =>
      if cfg.acceptedTokenUse ≠ "" ∧ claims.tokenUse ≠ some cfg.acceptedTokenUse then
        (cache1, .error (.invalidTok ("token_use must be " ++ cfg.acceptedTokenUse)))
      else
        match cfg.requiredGroup with
        | some gp =>
            let grps := if claims.cognitoGroups.isEmpty then claims.groups
                        else claims.cognitoGroups
            if gp ∈ grps then (cache1, .ok claims)
            else (cache1, .error (.invalidTok "required group missing"))
        | none => (cache1, .ok claims)

/-- Request principal recorded in `g.principal`, projected to the fields
read downstream (`sub` and `username`). -/
structure Principal where
  sub : Option String := none
  username : Option String := none
deriving Repr, DecidableEq

/-- Flask request, projected to the fields the code reads. -/
structure AppRequest where
  method : String
  path : String
  authorization : Option String := none
  contentType : Option String := none
  body : RawBody := RawBody.empty
  queryLimit : Option String := none
  queryCursor : Option String := none

/-- Embeds `jresp` composed with `corsify` (header set as in the Lambda
variant; the response content-type header is outside the model). -/
def jresp (cfg : AppConfig) (status : Nat) (body : RBody) : Response :=
  { statusCode := status, headers := allHeaders cfg.corsOrigin, body := body }

/-- Embeds `jerror`. -/
def jerror (cfg : AppConfig) (status : Nat) (code message : String) : Response :=
  jresp cfg status (RBody.errBody code message)

/-- Embeds the `require_auth` decorator up to the call of the wrapped view:
header-shape check, token extraction (`auth.split(" ", 1)[1].strip()`, here
equal to stripping everything after the 7-character prefix), verification,
and the exception-to-response mapping. -/
def require_auth (cfg : AppConfig) (env : AuthEnv) (now : Nat)
    (cache : JwksCache) (req : AppRequest) : JwksCache × Except Response Principal :=
  let auth := req.authorization.getD ""
  if ¬ strStarts "Bearer " auth then
    (cache, .error (jerror cfg 401 "UNAUTHORIZED" "Missing or invalid Authorization header"))
  else
    let token := pyStrip (strDrop auth 7)
    match decode_and_verify cfg env now cache token with
    | (cache1, .error .jwksFetch) =>
        (cache1, .error (jerror cfg 502 "JWKS_FETCH_FAILED" "Unable to retrieve JWKS"))
    | (cache1, .error .expired) =>
        (cache1, .error (jerror cfg 401 "TOKEN_EXPIRED" "Token expired"))
    | (cache1, .error (.invalidTok m)) =>
        (cache1, .error (jerror cfg 401 "INVALID_TOKEN" m))
    | (cache1, .ok claims) =>
        (cache1, .ok { sub := claims.sub,
                       username := pyOrOS claims.username claims.cognitoUsername })

/-- Embeds `parse_json_body` of `app.py`: Flask's case-insensitive
`Content-Type` lookup is modelled by `req.contentType` holding the value;
`request.get_json(force=False, silent=False)` raises both on malformed JSON
and on an absent/empty body, and both exceptions map to `INVALID_JSON`. -/
def parse_json_body (cfg : AppConfig) (req : AppRequest) : Except Response Json :=
  let ct := req.contentType.getD ""
  if ¬ ctMatches ct then
    .error (jerror cfg 400 "INVALID_CONTENT_TYPE" "Content-Type must be application/json")
  else
    match req.body with
    | .empty => .error (jerror cfg 400 "INVALID_JSON" "Request body is not valid JSON")
    | .malformed => .error (jerror cfg 400 "INVALID_JSON" "Request body is not valid JSON")
    | .wellFormed v => .ok v

/-- Embeds the view `create_todo` (body of the function, after
`require_auth` has granted access and bound the principal).  Identical to
the Lambda variant except for the in-view OPTIONS branch and the two owner
fields recorded from the principal. -/
def create_todo (cfg : AppConfig) (clock : Nat) (newId : String)
    (pr : Principal) (req : AppRequest) (store : Store) :
    Except Unit (Response × Store) :=
  if req.method = "OPTIONS" then
    .ok ({ statusCode := 204, headers := allHeaders cfg.corsOrigin, body := RBody.empty }, store)
  else
    match parse_json_body cfg req with
    | .error r => .ok (r, store)
    | .ok body =>
      match pyDictGet body "title" with
      | .error _ => .error ()
      | .ok title? =>
        match pyDictGet body "dueDate" with
        | .error _ => .error ()
        | .ok due? =>
          match title? with
          | some (.str s) =>
            if pyStrip s = "" then
              .ok (jerror cfg 400 "MISSING_TITLE" "'title' is required", store)
            else if s.length > MAX_TITLE_LEN then
              .ok (jerror cfg 400 "TITLE_TOO_LONG" "'title' must be <= 140 characters", store)
            else if ¬ validate_due_date due? then
              .ok (jerror cfg 400 "INVALID_DUE_DATE" "'dueDate' must be RFC3339/ISO-8601", store)
            else
              let item : Item :=
                { id := newId, title := pyStrip s, dueDate := dueVal due?,
                  createdAt := clock, updatedAt := clock,
                  ownerSub := pr.sub, ownerUsername := pr.username }
              match storeGet store newId with
              | some _ => .ok (jerror cfg 409 "CONFLICT" "Item already exists (id collision)", store)
              | none => .ok (jresp cfg 201 (RBody.item item), store ++ [item])
          | _ => .ok (jerror cfg 400 "MISSING_TITLE" "'title' is required", store)

/-- Embeds the view `todo_by_id` (after `require_auth`): OPTIONS branch,
then GET / PUT / DELETE on the given id, with the same conditional-write
semantics as the Lambda variant, and the in-view 405 fallback. -/
def todo_by_id (cfg : AppConfig) (clock : Nat) (req : AppRequest)
    (todoId : String) (store : Store) : Except Unit (Response × Store) :=
  if req.method = "OPTIONS" then
    .ok ({ statusCode := 204, headers := allHeaders cfg.corsOrigin, body := RBody.empty }, store)
  else if req.method = "GET" then
    match storeGet store todoId with
    | none => .ok (jerror cfg 404 "NOT_FOUND" "Todo not found", store)
    | some it => .ok (jresp cfg 200 (RBody.item it), store)
  else if req.method = "PUT" then
    match parse_json_body cfg req with
    | .error r => .ok (r, store)
    | .ok body0 =>
      let body := pyBodyOr body0
      match pyIn "title" body with
      | .error _ => .error ()
      | .ok hasTitle =>
        let titleStep : Except Unit (Except Response (Option String)) :=
          if hasTitle then
            match pySubscript body "title" with
            | .error _ => .error ()
            | .ok (.str s) =>
                if pyStrip s = "" then
                  .ok (.error (jerror cfg 400 "INVALID_TITLE" "'title' must be a non-empty string"))
                else if s.length > MAX_TITLE_LEN then
                  .ok (.error (jerror cfg 400 "TITLE_TOO_LONG" "'title' must be <= 140 characters"))
                else .ok (.ok (some (pyStrip s)))
            | .ok _ =>
                .ok (.error (jerror cfg 400 "INVALID_TITLE" "'title' must be a non-empty string"))
          else .ok (.ok none)
        match titleStep with
        | .error _ => .error ()
        | .ok (.error r) => .ok (r, store)
        | .ok (.ok updTitle) =>
          match pyIn "dueDate" body with
          | .error _ => .error ()
          | .ok hasDue =>
            let dueStep : Except Unit (Except Response (Option (Option String))) :=
              if hasDue then
                match pySubscript body "dueDate" with
                | .error _ => .error ()
                | .ok d =>
                    if ¬ validate_due_date (some d) then
                      .ok (.error (jerror cfg 400 "INVALID_DUE_DATE" "'dueDate' must be RFC3339/ISO-8601"))
                    else .ok (.ok (some (dueVal (some d))))
              else .ok (.ok none)
            match dueStep with
            | .error _ => .error ()
            | .ok (.error r) => .ok (r, store)
            | .ok (.ok updDue) =>
              if updTitle.isNone && updDue.isNone then
                .ok (jerror cfg 400 "NO_MUTABLE_FIELDS" "No updatable fields provided", store)
              else
                match storeGet store todoId with
                | none => .ok (jerror cfg 404 "NOT_FOUND" "Todo not found", store)
                | some it =>
                  let it1 : Item :=
                    { it with
                      title := updTitle.getD it.title,
                      dueDate := updDue.getD it.dueDate,
                      updatedAt := clock }
                  .ok (jresp cfg 200 (RBody.item it1), storeReplace store todoId it1)
  else if req.method = "DELETE" then
    match storeGet store todoId with
    | none => .ok (jerror cfg 404 "NOT_FOUND" "Todo not found", store)
    | some _ =>
        .ok ({ statusCode := 204, headers := allHeaders cfg.corsOrigin, body := RBody.empty },
             storeRemove store todoId)
  else
    .ok (jerror cfg 405 "METHOD_NOT_ALLOWED" "Unsupported method", store)

/-- Embeds the view `list_todos` (after `require_auth`): same limit parsing
and scan as the Lambda variant. -/
def list_todos (cfg : AppConfig) (req : AppRequest) (store : Store) : Response :=
  if req.method = "OPTIONS" then
    { statusCode := 204, headers := allHeaders cfg.corsOrigin, body := RBody.empty }
  else
    let cursor := req.queryCursor
    let limit_raw := req.queryLimit
    let run : Nat → Response := fun limit =>
      let esk := match cursor with
        | some c => if c = "" then none else some c
        | none => none
      let res := tableScan store limit esk
      jresp cfg 200 (RBody.page res.1 res.2)
    match limit_raw with
    | some s =>
        if s = "" then run DEFAULT_PAGE_SIZE
        else
          match pyInt s with
          | some n => run (max 1 (min 100 n)).toNat
          | none => jerror cfg 400 "INVALID_LIMIT" "'limit' must be an integer between 1 and 100"
    | none => run DEFAULT_PAGE_SIZE

/-- Routes registered on the Flask app, and the werkzeug match outcome:
static rules (`/health`, the two `/todos` registrations) match before the
dynamic rule `/todos/<todo_id>` (whose converter takes a non-empty segment
without slashes); a path matching some rule but no allowed method gives
Flask's default 405, an unmatched path falls to the 404 error handler. -/
inductive FlaskRoute where
  | health
  | createTodo
  | listTodos
  | todoById (todoId : String)
  | methodNotAllowed
  | notFound

/-- The `<todo_id>` segment of a path matching `/todos/<todo_id>`. -/
def todoIdOf (path : String) : Option String :=
  if strStarts "/todos/" path then
    let rest := strDrop path 7
    if rest ≠ "" ∧ ¬ rest.data.contains '/' then some rest else none
  else none

/-- Route resolution for a method/path pair. -/
def routeOf (method path : String) : FlaskRoute :=
  if path = "/health" then
    if method = "GET" ∨ method = "OPTIONS" then .health else .methodNotAllowed
  else if path = "/todos" then
    if method = "POST" ∨ method = "OPTIONS" then .createTodo
    else if method = "GET" then .listTodos
    else .methodNotAllowed
  else
    match todoIdOf path with
    | some i =>
        if method = "GET" ∨ method = "PUT" ∨ method = "DELETE" ∨ method = "OPTIONS" then
          .todoById i
        else .methodNotAllowed
    | none => .notFound

/-- Embeds the Flask application end to end for one request: route match,
the `require_auth` gate on the three todo views (note: it runs before the
in-view OPTIONS branches), the view body, the 404 handler
(`ROUTE_NOT_FOUND`), the 500 handler (`INTERNAL_ERROR`) for uncaught view
exceptions, and Flask's plain 405 for disallowed methods. -/
def flask_app (cfg : AppConfig) (env : AuthEnv) (now : Nat) (newId : String)
    (cache : JwksCache) (store : Store) (req : AppRequest) :
    Response × JwksCache × Store :=
  let authed : (Principal → Except Unit (Response × Store)) →
      Response × JwksCache × Store := fun view =>
    match require_auth cfg env now cache req with
    | (cache1, .error resp) => (resp, cache1, store)
    | (cache1, .ok pr) =>
        match view pr with
        | .error _ => (jerror cfg 500 "INTERNAL_ERROR" "Unexpected server error", cache1, store)
        | .ok (resp, store1) => (resp, cache1, store1)
  match routeOf req.method req.path with
  | .health =>
      if req.method = "OPTIONS" then
        ({ statusCode := 204, headers := allHeaders cfg.corsOrigin, body := RBody.empty },
         cache, store)
      else (jresp cfg 200 (RBody.health now), cache, store)
  | .createTodo => authed (fun pr => create_todo cfg now newId pr req store)
  | .listTodos => authed (fun _ => .ok (list_todos cfg req store, store))
  | .todoById i => authed (fun _ => todo_by_id cfg now req i store)
  | .methodNotAllowed =>
      ({ statusCode := 405, headers := [], body := RBody.empty }, cache, store)
  | .notFound => (jerror cfg 404 "ROUTE_NOT_FOUND" "Route not found", cache, store)

end App

/-! ## Request builders and owner-field erasure used by the theorems -/

/-- Lambda event in REST v1 shape with a canonical `content-type` header. -/
def Handler.mkEvent (method path : String) (ct : Option String)
    (rb : Option RawBody) (qs : List (String × String)) : Handler.Event :=
  { path := some path, httpMethod := some method,
    headers := match ct with | some c => [("content-type", c)] | none => [],
    body := rb, queryStringParameters := qs }

/-- Lambda event carrying a JSON body under `application/json`. -/
def Handler.jsonEvent (method path : String) (v : Json) : Handler.Event :=
  Handler.mkEvent method path (some "application/json") (some (RawBody.wellFormed v)) []

/-- Flask request carrying a JSON body under `application/json`. -/
def App.jsonRequest (method path : String) (auth : Option String) (v : Json) :
    App.AppRequest :=
  { method := method, path := path, authorization := auth,
    contentType := some "application/json", body := RawBody.wellFormed v }

/-- Erasure of the owner fields recorded only by the Flask variant. -/
def Item.stripOwner (it : Item) : Item :=
  { it with ownerSub := none, ownerUsername := none }

/-- Owner-field erasure over a store. -/
def stripOwnerStore (st : Store) : Store := st.map Item.stripOwner

/-- Owner-field erasure over a response payload. -/
def RBody.stripOwner : RBody → RBody
  | .item it => .item it.stripOwner
  | .page items c => .page (items.map Item.stripOwner) c
  | b => b

/-- Owner-field erasure over a response. -/
def Response.stripOwner (r : Response) : Response :=
  { r with body := r.body.stripOwner }

/-- Owner-field erasure over a handler outcome. -/
def stripRS (x : Except Unit (Response × Store)) : Except Unit (Response × Store) :=
  x.map (fun rs => (rs.1.stripOwner, stripOwnerStore rs.2))

/-! ## Auxiliary lemmas -/

theorem strDrop_bearer (t : String) : strDrop ("Bearer " ++ t) 7 = t := by
  simp [strDrop, String.data_append]

theorem strStarts_bearer (t : String) : strStarts "Bearer " ("Bearer " ++ t) = true := by
  simp [strStarts, String.data_append, List.isPrefixOf_iff_prefix]

theorem strStarts_todos (i : String) : strStarts "/todos/" ("/todos/" ++ i) = true := by
  simp [strStarts, String.data_append, List.isPrefixOf_iff_prefix]

theorem strDrop_todos (i : String) : strDrop ("/todos/" ++ i) 7 = i := by
  simp [strDrop, String.data_append]

theorem todos_ne_health (i : String) : ("/todos/" ++ i) ≠ "/health" := by
  intro h
  have h2 := congrArg String.data h
  simp [String.data_append] at h2

theorem todos_ne_todos (i : String) : ("/todos/" ++ i) ≠ "/todos" := by
  intro h
  have h2 := congrArg String.data h
  simp [String.data_append] at h2

theorem takeWhile_ne_slash_append (l₁ l₂ : List Char) (h : ∀ c ∈ l₁, c ≠ '/') :
    (l₁ ++ '/' :: l₂).takeWhile (fun c => decide (c ≠ '/')) = l₁ := by
  induction l₁ with
  | nil => simp [List.takeWhile_cons]
  | cons a l ih =>
      have ha : (decide (a ≠ '/')) = true := by
        simpa using h a (List.mem_cons_self a l)
      rw [List.cons_append, List.takeWhile_cons, if_pos ha]
      exact congrArg (a :: ·) (ih (fun c hc => h c (List.mem_cons_of_mem a hc)))

theorem lastSegment_todos (i : String) (h : ¬ i.data.contains '/') :
    Handler.lastSegment ("/todos/" ++ i) = i := by
  have hmem : ∀ c ∈ i.data.reverse, c ≠ '/' := by
    intro c hc he
    subst he
    exact h (by simpa using List.mem_reverse.mp hc)
  show String.mk ((("/todos/" ++ i).toList.reverse.takeWhile (· ≠ '/')).reverse) = i
  have hrev : ("/todos/" ++ i).toList.reverse
      = i.data.reverse ++ ('/' :: ['s', 'o', 'd', 'o', 't', '/']) := by
    show ("/todos/" ++ i).data.reverse = _
    rw [String.data_append, List.reverse_append]
    rfl
  rw [hrev, takeWhile_ne_slash_append _ _ hmem, List.reverse_reverse]



theorem handler_parse_eval (origin : Option String) (m p : String)
    (ct : Option String) (rb : Option RawBody) (qs : List (String × String)) :
    Handler.parse_json_body origin (Handler.mkEvent m p ct rb qs)
      = (if ctMatches (ct.getD "") then
          match rb with
          | none => .ok (Json.obj [])
          | some .empty => .ok (Json.obj [])
          | some .malformed =>
              .error (Handler.err origin 400 "INVALID_JSON" "Request body is not valid JSON")
          | some (.wellFormed v) => .ok v
        else
          .error (Handler.err origin 400 "INVALID_CONTENT_TYPE"
            "Content-Type must be application/json")) := by
  have h0 : ctMatches "" = false := by decide
  unfold Handler.parse_json_body Handler.mkEvent Handler.dGet
  cases ct with
  | none => simp [pyOrOS, List.lookup, h0]
  | some c =>
      by_cases hc : c = ""
      · subst hc
        simp [pyOrOS, List.lookup, h0]
      · cases hct : ctMatches c <;>
          (simp [pyOrOS, List.lookup, hc, hct]; try rfl)

/-- C10, counterexample: with a JSON content type, a raw body that is valid
JSON but not an object (here the array `[]`) makes `parse_json_body`
succeed, contradicting the claim that parsing succeeds only for JSON
objects. -/
theorem c10_counterexample :
    Handler.parse_json_body none
      (Handler.mkEvent "POST" "/todos" (some "application/json")
        (some (RawBody.wellFormed (Json.arr []))) [])
      = Except.ok (Json.arr []) := by
  rw [handler_parse_eval]
  rfl

/-- C10 (amended): body parsing accepts exactly the syntactically valid JSON
bodies — any JSON value, an object is not required; a non-matching content
type gives the distinct 400 INVALID_CONTENT_TYPE, a malformed body 400
INVALID_JSON (in the Flask variant an absent/empty body is also
INVALID_JSON), in both deployment shapes. -/
theorem c10_body_parsing (origin : Option String) (cfg : App.AppConfig)
    (m p : String) (ct : Option String) (v : Json) :
    (ctMatches (ct.getD "") = false →
      (∀ rb, Handler.parse_json_body origin (Handler.mkEvent m p ct rb [])
        = .error (Handler.err origin 400 "INVALID_CONTENT_TYPE"
            "Content-Type must be application/json")) ∧
      (∀ rb, App.parse_json_body cfg
          { method := m, path := p, contentType := ct, body := rb }
        = .error (App.jerror cfg 400 "INVALID_CONTENT_TYPE"
            "Content-Type must be application/json"))) ∧
    (ctMatches (ct.getD "") = true →
      (Handler.parse_json_body origin
          (Handler.mkEvent m p ct (some RawBody.malformed) [])
        = .error (Handler.err origin 400 "INVALID_JSON" "Request body is not valid JSON")) ∧
      (Handler.parse_json_body origin
          (Handler.mkEvent m p ct (some (RawBody.wellFormed v)) [])
        = .ok v) ∧
      (App.parse_json_body cfg
          { method := m, path := p, contentType := ct, body := RawBody.malformed }
        = .error (App.jerror cfg 400 "INVALID_JSON" "Request body is not valid JSON")) ∧
      (App.parse_json_body cfg
          { method := m, path := p, contentType := ct, body := RawBody.empty }
        = .error (App.jerror cfg 400 "INVALID_JSON" "Request body is not valid JSON")) ∧
      (App.parse_json_body cfg
          { method := m, path := p, contentType := ct, body := RawBody.wellFormed v }
        = .ok v)) := by
  constructor
  · intro hct
    constructor
    · intro rb
      rw [handler_parse_eval, hct]
      simp
    · intro rb
      unfold App.parse_json_body
      simp [hct]
  · intro hct
    refine ⟨?_, ?_, ?_, ?_, ?_⟩ <;>
      first
        | (rw [handler_parse_eval, hct]; simp)
        | (unfold App.parse_json_body; simp [hct])

/-- C10 witness: the amended theorem applied at concrete inputs — a
`text/plain` content type is rejected as INVALID_CONTENT_TYPE, and a
malformed body under `application/json` as INVALID_JSON. -/
theorem c10_body_parsing_witness :
    (Handler.parse_json_body none
        (Handler.mkEvent "POST" "/todos" (some "text/plain")
          (some (RawBody.wellFormed Json.null)) [])
      = .error (Handler.err none 400 "INVALID_CONTENT_TYPE"
          "Content-Type must be application/json")) ∧
    (App.parse_json_body {}
        { method := "POST", path := "/todos",
          contentType := some "application/json", body := RawBody.malformed }
      = .error (App.jerror {} 400 "INVALID_JSON" "Request body is not valid JSON")) := by
  constructor
  · exact ((c10_body_parsing none {} "POST" "/todos" (some "text/plain") Json.null).1
      (by decide)).1 (some (RawBody.wellFormed Json.null))
  · exact ((c10_body_parsing none {} "POST" "/todos" (some "application/json") Json.null).2
      (by decide)).2.2.1

/-- Query-string builder with optional `limit` and `cursor` parameters. -/
def qsOf (lim cur : Option String) : List (String × String) :=
  (match lim with | some l => [("limit", l)] | none => []) ++
  (match cur with | some c => [("cursor", c)] | none => [])

theorem qsOf_limit (lim cur : Option String) :
    Handler.dGet (qsOf lim cur) "limit" = lim := by
  cases lim <;> cases cur <;> simp [qsOf, Handler.dGet, List.lookup]

theorem qsOf_cursor (lim cur : Option String) :
    Handler.dGet (qsOf lim cur) "cursor" = cur := by
  cases lim <;> cases cur <;> simp [qsOf, Handler.dGet, List.lookup]

/-- C8 (amended): an absent or empty `limit` gives the default 20; a
non-empty value parseable as an integer is clamped into the inclusive range
1..100 silently (limit=0 behaves as limit=1, limit=9999 as limit=100); a
non-empty, non-parseable value fails with 400 INVALID_LIMIT — in both
deployment shapes. -/
theorem c8_limit_parsing (origin : Option String) (cfg : App.AppConfig)
    (st : Store) (cur : Option String) (esk : Option String)
    (hesk : esk = match cur with
      | some c => if c = "" then none else some c
      | none => none) :
    (Handler.handle_list_todos origin { queryStringParameters := qsOf none cur } st
      = Handler.json_response origin 200 (RBody.page
          (tableScan st DEFAULT_PAGE_SIZE esk).1 (tableScan st DEFAULT_PAGE_SIZE esk).2)) ∧
    (Handler.handle_list_todos origin { queryStringParameters := qsOf (some "") cur } st
      = Handler.json_response origin 200 (RBody.page
          (tableScan st DEFAULT_PAGE_SIZE esk).1 (tableScan st DEFAULT_PAGE_SIZE esk).2)) ∧
    (∀ s n, s ≠ "" → pyInt s = some n →
      Handler.handle_list_todos origin { queryStringParameters := qsOf (some s) cur } st
        = Handler.json_response origin 200 (RBody.page
            (tableScan st (max 1 (min 100 n)).toNat esk).1
            (tableScan st (max 1 (min 100 n)).toNat esk).2)) ∧
    (∀ s, s ≠ "" → pyInt s = none →
      Handler.handle_list_todos origin { queryStringParameters := qsOf (some s) cur } st
        = Handler.err origin 400 "INVALID_LIMIT"
            "'limit' must be an integer between 1 and 100") ∧
    (Handler.handle_list_todos origin { queryStringParameters := qsOf (some "0") cur } st
      = Handler.handle_list_todos origin { queryStringParameters := qsOf (some "1") cur } st) ∧
    (Handler.handle_list_todos origin { queryStringParameters := qsOf (some "9999") cur } st
      = Handler.handle_list_todos origin { queryStringParameters := qsOf (some "100") cur } st) ∧
    (App.list_todos cfg { method := "GET", path := "/todos",
                          queryLimit := none, queryCursor := cur } st
      = App.jresp cfg 200 (RBody.page
          (tableScan st DEFAULT_PAGE_SIZE esk).1 (tableScan st DEFAULT_PAGE_SIZE esk).2)) ∧
    (App.list_todos cfg { method := "GET", path := "/todos",
                          queryLimit := some "", queryCursor := cur } st
      = App.jresp cfg 200 (RBody.page
          (tableScan st DEFAULT_PAGE_SIZE esk).1 (tableScan st DEFAULT_PAGE_SIZE esk).2)) ∧
    (∀ s n, s ≠ "" → pyInt s = some n →
      App.list_todos cfg { method := "GET", path := "/todos",
                           queryLimit := some s, queryCursor := cur } st
        = App.jresp cfg 200 (RBody.page
            (tableScan st (max 1 (min 100 n)).toNat esk).1
            (tableScan st (max 1 (min 100 n)).toNat esk).2)) ∧
    (∀ s, s ≠ "" → pyInt s = none →
      App.list_todos cfg { method := "GET", path := "/todos",
                           queryLimit := some s, queryCursor := cur } st
        = App.jerror cfg 400 "INVALID_LIMIT"
            "'limit' must be an integer between 1 and 100") := by
  subst hesk
  refine ⟨?_, ?_, ?_, ?_, ?_, ?_, ?_, ?_, ?_, ?_⟩
  · unfold Handler.handle_list_todos
    dsimp only
    rw [qsOf_limit, qsOf_cursor]
    try rfl
  · unfold Handler.handle_list_todos
    dsimp only
    rw [qsOf_limit, qsOf_cursor]
    try rfl
  · intro s n hs hn
    unfold Handler.handle_list_todos
    dsimp only
    rw [qsOf_limit, qsOf_cursor]
    simp [hs, hn]
    try rfl
  · intro s hs hn
    unfold Handler.handle_list_todos
    dsimp only
    rw [qsOf_limit, qsOf_cursor]
    simp [hs, hn]
  · unfold Handler.handle_list_todos
    dsimp only
    rw [qsOf_limit, qsOf_cursor, qsOf_limit, qsOf_cursor]
    try rfl
  · unfold Handler.handle_list_todos
    dsimp only
    rw [qsOf_limit, qsOf_cursor, qsOf_limit, qsOf_cursor]
    try rfl
  · try rfl
  · try rfl
  · intro s n hs hn
    unfold App.list_todos
    dsimp only
    simp [hs, hn]
    try rfl
  · intro s hs hn
    unfold App.list_todos
    dsimp only
    simp [hs, hn]

/-- C8, counterexample: a present-but-empty `limit` parameter is not
parseable as an integer, yet GET /todos succeeds with 200 using the default
page size (Python's `if limit_raw:` treats the empty string as absent),
instead of failing with 400 INVALID_LIMIT as the claim requires for a
present, non-parseable value. -/
theorem c8_counterexample :
    (Handler.lambda_handler none 0 "x0"
      { path := some "/todos", httpMethod := some "GET",
        queryStringParameters := [("limit", "")] }
      [{ id := "a", title := "t", createdAt := 1, updatedAt := 1 },
       { id := "b", title := "u", createdAt := 1, updatedAt := 1 }]).1
    = Handler.json_response none 200 (RBody.page
        [{ id := "a", title := "t", createdAt := 1, updatedAt := 1 },
         { id := "b", title := "u", createdAt := 1, updatedAt := 1 }] none) := by
  rfl

/-- C8 witness: the amended theorem applied concretely — `limit=abc` fails
with INVALID_LIMIT, and `limit=0` behaves exactly as `limit=1`. -/
theorem c8_limit_parsing_witness :
    (Handler.handle_list_todos none { queryStringParameters := qsOf (some "abc") none } []
      = Handler.err none 400 "INVALID_LIMIT" "'limit' must be an integer between 1 and 100") ∧
    (Handler.handle_list_todos none { queryStringParameters := qsOf (some "0") none } []
      = Handler.handle_list_todos none { queryStringParameters := qsOf (some "1") none } []) := by
  have h := c8_limit_parsing none {} [] none none rfl
  exact ⟨h.2.2.2.1 "abc" (by decide) (by decide), h.2.2.2.2.1⟩

theorem pyDictGet_obj (kvs : List (String × Json)) (k : String) :
    pyDictGet (Json.obj kvs) k = .ok (dictGet kvs k) := by
  cases kvs <;> simp [pyDictGet, pyBodyOr, Json.falsy, dictGet, List.lookup]

theorem pyIn_obj (kvs : List (String × Json)) (k : String) :
    pyIn k (pyBodyOr (Json.obj kvs)) = .ok (dictHas kvs k) := by
  cases kvs <;> simp [pyIn, pyBodyOr, Json.falsy, dictHas, List.lookup]

theorem pySubscript_obj (kvs : List (String × Json)) (k : String) :
    pySubscript (pyBodyOr (Json.obj kvs)) k
      = (match dictGet kvs k with
         | some x => .ok x
         | none => .error ()) := by
  cases kvs <;> (simp [pySubscript, pyBodyOr, Json.falsy, dictGet, List.lookup]; try rfl)

-- C7 handler side trial
example (origin : Option String) (clock : Nat) (todoId : String) (store : Store)
    (kvs : List (String × Json))
    (h1 : dictHas kvs "title" = false) (h2 : dictHas kvs "dueDate" = false) :
    Handler.handle_update_todo origin clock
      (Handler.jsonEvent "PUT" ("/todos/" ++ todoId) (Json.obj kvs)) todoId store
    = .ok (Handler.err origin 400 "NO_MUTABLE_FIELDS" "No updatable fields provided", store) := by
  unfold Handler.handle_update_todo Handler.jsonEvent
  rw [handler_parse_eval]
  rw [if_pos (by decide : ctMatches ((some "application/json").getD "") = true)]
  simp only []
  rw [pyIn_obj, pyIn_obj]
  simp [h1, h2]

theorem app_parse_json (cfg : App.AppConfig) (m p : String) (a : Option String) (v : Json) :
    App.parse_json_body cfg (App.jsonRequest m p a v) = .ok v := by
  unfold App.parse_json_body App.jsonRequest
  simp [(by decide : ctMatches "application/json" = true)]

/-- C7: a PUT body that is a JSON object supplying neither `title` nor
`dueDate` fails with 400 NO_MUTABLE_FIELDS and the store is unchanged (no
store operation is reached), in both deployment shapes. -/
theorem c7_no_mutable_fields (origin : Option String) (cfg : App.AppConfig)
    (clock : Nat) (todoId : String) (store : Store)
    (kvs : List (String × Json))
    (h1 : dictHas kvs "title" = false) (h2 : dictHas kvs "dueDate" = false) :
    (Handler.handle_update_todo origin clock
        (Handler.jsonEvent "PUT" ("/todos/" ++ todoId) (Json.obj kvs)) todoId store
      = .ok (Handler.err origin 400 "NO_MUTABLE_FIELDS" "No updatable fields provided", store)) ∧
    (App.todo_by_id cfg clock
        (App.jsonRequest "PUT" ("/todos/" ++ todoId) (some "Bearer t") (Json.obj kvs))
        todoId store
      = .ok (App.jerror cfg 400 "NO_MUTABLE_FIELDS" "No updatable fields provided", store)) := by
  constructor
  · unfold Handler.handle_update_todo Handler.jsonEvent
    rw [handler_parse_eval]
    rw [if_pos (by decide : ctMatches ((some "application/json").getD "") = true)]
    simp only []
    rw [pyIn_obj, pyIn_obj]
    simp [h1, h2]
  · unfold App.todo_by_id
    rw [app_parse_json]
    simp only []
    rw [pyIn_obj, pyIn_obj]
    simp [App.jsonRequest, h1, h2]

/-- C7 witness: the theorem applied to the empty JSON object body. -/
theorem c7_no_mutable_fields_witness :
    (Handler.handle_update_todo none 3
        (Handler.jsonEvent "PUT" "/todos/a" (Json.obj [])) "a" []
      = .ok (Handler.err none 400 "NO_MUTABLE_FIELDS" "No updatable fields provided", [])) ∧
    (App.todo_by_id {} 3
        (App.jsonRequest "PUT" "/todos/a" (some "Bearer t") (Json.obj [])) "a" []
      = .ok (App.jerror {} 400 "NO_MUTABLE_FIELDS" "No updatable fields provided", [])) :=
  c7_no_mutable_fields none {} 3 "a" [] [] (by decide) (by decide)

/-- Optional `dueDate` field list of a create body. -/
def ddFields (dd : Option Json) : List (String × Json) :=
  match dd with | some d => [("dueDate", d)] | none => []

theorem dictGet_title (s : String) (rest : List (String × Json)) :
    dictGet (("title", Json.str s) :: rest) "title" = some (Json.str s) := by
  simp [dictGet, List.lookup]

theorem dictGet_due (s : String) (dd : Option Json) :
    dictGet (("title", Json.str s) :: ddFields dd) "dueDate" = dd := by
  cases dd <;>
    simp [dictGet, ddFields, List.lookup,
      (show ("dueDate" == "title") = false by decide)]

/-- Evaluation of the Lambda create handler on a `{title: s, dueDate?}`
body with a valid due date: the title cascade, then the conditional put. -/
theorem handler_create_eval (origin : Option String) (clock : Nat)
    (newId : String) (store : Store) (s : String) (dd : Option Json)
    (hdd : validate_due_date dd = true) :
    Handler.handle_create_todo origin clock newId
      (Handler.jsonEvent "POST" "/todos" (Json.obj (("title", Json.str s) :: ddFields dd)))
      store
    = (if pyStrip s = "" then
        .ok (Handler.err origin 400 "MISSING_TITLE" "'title' is required", store)
      else if s.length > MAX_TITLE_LEN then
        .ok (Handler.err origin 400 "TITLE_TOO_LONG" "'title' must be <= 140 characters", store)
      else
        match storeGet store newId with
        | some _ =>
            .ok (Handler.err origin 409 "CONFLICT" "Item already exists (id collision)", store)
        | none =>
            .ok (Handler.json_response origin 201 (RBody.item
                { id := newId, title := pyStrip s, dueDate := dueVal dd,
                  createdAt := clock, updatedAt := clock }),
              store ++ [{ id := newId, title := pyStrip s, dueDate := dueVal dd,
                          createdAt := clock, updatedAt := clock }])) := by
  unfold Handler.handle_create_todo Handler.jsonEvent
  rw [handler_parse_eval]
  rw [if_pos (by decide : ctMatches ((some "application/json").getD "") = true)]
  simp only []
  rw [pyDictGet_obj, pyDictGet_obj, dictGet_title, dictGet_due]
  simp [hdd]
  try rfl

/-- Evaluation of the Flask `create_todo` view body on the same input; the
created item additionally records the principal's owner fields. -/
theorem app_create_eval (cfg : App.AppConfig) (clock : Nat) (newId : String)
    (pr : App.Principal) (store : Store) (s : String) (dd : Option Json)
    (hdd : validate_due_date dd = true) :
    App.create_todo cfg clock newId pr
      (App.jsonRequest "POST" "/todos" (some "Bearer t")
        (Json.obj (("title", Json.str s) :: ddFields dd))) store
    = (if pyStrip s = "" then
        .ok (App.jerror cfg 400 "MISSING_TITLE" "'title' is required", store)
      else if s.length > MAX_TITLE_LEN then
        .ok (App.jerror cfg 400 "TITLE_TOO_LONG" "'title' must be <= 140 characters", store)
      else
        match storeGet store newId with
        | some _ =>
            .ok (App.jerror cfg 409 "CONFLICT" "Item already exists (id collision)", store)
        | none =>
            .ok (App.jresp cfg 201 (RBody.item
                { id := newId, title := pyStrip s, dueDate := dueVal dd,
                  createdAt := clock, updatedAt := clock,
                  ownerSub := pr.sub, ownerUsername := pr.username }),
              store ++ [{ id := newId, title := pyStrip s, dueDate := dueVal dd,
                          createdAt := clock, updatedAt := clock,
                          ownerSub := pr.sub, ownerUsername := pr.username }])) := by
  unfold App.create_todo
  rw [app_parse_json]
  simp only []
  rw [pyDictGet_obj, pyDictGet_obj, dictGet_title, dictGet_due]
  simp [App.jsonRequest, hdd]
  try rfl

/-- Evaluation of the Lambda update handler on a `{title: t}` body. -/
theorem handler_update_title_eval (origin : Option String) (clock : Nat)
    (p todoId : String) (store : Store) (t : String) :
    Handler.handle_update_todo origin clock
      (Handler.jsonEvent "PUT" p (Json.obj [("title", Json.str t)])) todoId store
    = (if pyStrip t = "" then
        .ok (Handler.err origin 400 "INVALID_TITLE" "'title' must be a non-empty string", store)
      else if t.length > MAX_TITLE_LEN then
        .ok (Handler.err origin 400 "TITLE_TOO_LONG" "'title' must be <= 140 characters", store)
      else
        match storeGet store todoId with
        | none => .ok (Handler.err origin 404 "NOT_FOUND" "Todo not found", store)
        | some it =>
            .ok (Handler.json_response origin 200 (RBody.item
                { it with title := pyStrip t, updatedAt := clock }),
              storeReplace store todoId { it with title := pyStrip t, updatedAt := clock })) := by
  unfold Handler.handle_update_todo Handler.jsonEvent
  rw [handler_parse_eval]
  rw [if_pos (by decide : ctMatches ((some "application/json").getD "") = true)]
  simp only []
  rw [pyIn_obj, pyIn_obj, pySubscript_obj]
  simp [dictHas, dictGet, List.lookup,
    (show ("dueDate" == "title") = false by decide)]
  by_cases h1 : pyStrip t = ""
  · simp [h1]
  · by_cases h2 : t.length ≤ MAX_TITLE_LEN
    · simp [h1, h2, Nat.not_lt.mpr h2]
    · have h3 := Nat.lt_of_not_le h2
      simp [h1, h3]

/-- Evaluation of the Lambda update handler on a `{dueDate: d}` body with a
valid due date. -/
theorem handler_update_due_eval (origin : Option String) (clock : Nat)
    (p todoId : String) (store : Store) (d : Json)
    (hd : validate_due_date (some d) = true) :
    Handler.handle_update_todo origin clock
      (Handler.jsonEvent "PUT" p (Json.obj [("dueDate", d)])) todoId store
    = (match storeGet store todoId with
       | none => .ok (Handler.err origin 404 "NOT_FOUND" "Todo not found", store)
       | some it =>
          .ok (Handler.json_response origin 200 (RBody.item
              { it with dueDate := dueVal (some d), updatedAt := clock }),
            storeReplace store todoId { it with dueDate := dueVal (some d), updatedAt := clock })) := by
  unfold Handler.handle_update_todo Handler.jsonEvent
  rw [handler_parse_eval]
  rw [if_pos (by decide : ctMatches ((some "application/json").getD "") = true)]
  simp only []
  rw [pyIn_obj, pyIn_obj]
  simp only [pySubscript_obj]
  simp [dictHas, dictGet, List.lookup, hd,
    (show ("title" == "dueDate") = false by decide)]

/-- Evaluation of the Flask `todo_by_id` view on PUT with a `{title: t}`
body. -/
theorem app_update_title_eval (cfg : App.AppConfig) (clock : Nat)
    (p todoId : String) (store : Store) (t : String) :
    App.todo_by_id cfg clock
      (App.jsonRequest "PUT" p (some "Bearer t") (Json.obj [("title", Json.str t)]))
      todoId store
    = (if pyStrip t = "" then
        .ok (App.jerror cfg 400 "INVALID_TITLE" "'title' must be a non-empty string", store)
      else if t.length > MAX_TITLE_LEN then
        .ok (App.jerror cfg 400 "TITLE_TOO_LONG" "'title' must be <= 140 characters", store)
      else
        match storeGet store todoId with
        | none => .ok (App.jerror cfg 404 "NOT_FOUND" "Todo not found", store)
        | some it =>
            .ok (App.jresp cfg 200 (RBody.item
                { it with title := pyStrip t, updatedAt := clock }),
              storeReplace store todoId { it with title := pyStrip t, updatedAt := clock })) := by
  unfold App.todo_by_id
  rw [show (App.jsonRequest "PUT" p (some "Bearer t")
    (Json.obj [("title", Json.str t)])).method = "PUT" from rfl]
  simp only [show ("PUT" = "OPTIONS") = False by simp, show ("PUT" = "GET") = False by simp,
    if_false, if_true, eq_self_iff_true]
  rw [app_parse_json]
  simp only []
  rw [pyIn_obj, pyIn_obj]
  simp only [pySubscript_obj]
  simp [dictHas, dictGet, List.lookup,
    (show ("dueDate" == "title") = false by decide)]
  by_cases h1 : pyStrip t = ""
  · simp [h1]
  · by_cases h2 : t.length ≤ MAX_TITLE_LEN
    · simp [h1, h2, Nat.not_lt.mpr h2]
    · have h3 := Nat.lt_of_not_le h2
      simp [h1, h3]

/-- Evaluation of the Flask `todo_by_id` view on PUT with a `{dueDate: d}`
body, `d` valid. -/
theorem app_update_due_eval (cfg : App.AppConfig) (clock : Nat)
    (p todoId : String) (store : Store) (d : Json)
    (hd : validate_due_date (some d) = true) :
    App.todo_by_id cfg clock
      (App.jsonRequest "PUT" p (some "Bearer t") (Json.obj [("dueDate", d)]))
      todoId store
    = (match storeGet store todoId with
       | none => .ok (App.jerror cfg 404 "NOT_FOUND" "Todo not found", store)
       | some it =>
          .ok (App.jresp cfg 200 (RBody.item
              { it with dueDate := dueVal (some d), updatedAt := clock }),
            storeReplace store todoId { it with dueDate := dueVal (some d), updatedAt := clock })) := by
  unfold App.todo_by_id
  rw [show (App.jsonRequest "PUT" p (some "Bearer t")
    (Json.obj [("dueDate", d)])).method = "PUT" from rfl]
  simp only [show ("PUT" = "OPTIONS") = False by simp, show ("PUT" = "GET") = False by simp,
    if_false, if_true, eq_self_iff_true]
  rw [app_parse_json]
  simp only []
  rw [pyIn_obj, pyIn_obj]
  simp only [pySubscript_obj]
  simp [dictHas, dictGet, List.lookup, hd,
    (show ("title" == "dueDate") = false by decide)]

/-- C5: title validation on create (statement as before, via eval lemmas). -/
theorem c5_title_validation (origin : Option String) (cfg : App.AppConfig)
    (clock : Nat) (newId : String) (store : Store) (s : String)
    (dd : Option Json) (pr : App.Principal)
    (hdd : validate_due_date dd = true)
    (hfresh : storeGet store newId = none) :
    ((Handler.handle_create_todo origin clock newId
        (Handler.jsonEvent "POST" "/todos" (Json.obj (("title", Json.str s) :: ddFields dd)))
        store).map (fun rs => rs.1.statusCode) = Except.ok 201
      ↔ (pyStrip s ≠ "" ∧ s.length ≤ MAX_TITLE_LEN)) ∧
    (pyStrip s = "" →
      (Handler.handle_create_todo origin clock newId
          (Handler.jsonEvent "POST" "/todos" (Json.obj (("title", Json.str s) :: ddFields dd)))
          store
        = .ok (Handler.err origin 400 "MISSING_TITLE" "'title' is required", store)) ∧
      (App.create_todo cfg clock newId pr
          (App.jsonRequest "POST" "/todos" (some "Bearer t")
            (Json.obj (("title", Json.str s) :: ddFields dd))) store
        = .ok (App.jerror cfg 400 "MISSING_TITLE" "'title' is required", store))) ∧
    (pyStrip s ≠ "" → s.length > MAX_TITLE_LEN →
      (Handler.handle_create_todo origin clock newId
          (Handler.jsonEvent "POST" "/todos" (Json.obj (("title", Json.str s) :: ddFields dd)))
          store
        = .ok (Handler.err origin 400 "TITLE_TOO_LONG" "'title' must be <= 140 characters", store))) ∧
    (pyStrip s ≠ "" → s.length ≤ MAX_TITLE_LEN →
      (Handler.handle_create_todo origin clock newId
          (Handler.jsonEvent "POST" "/todos" (Json.obj (("title", Json.str s) :: ddFields dd)))
          store
        = .ok (Handler.json_response origin 201 (RBody.item
            { id := newId, title := pyStrip s, dueDate := dueVal dd,
              createdAt := clock, updatedAt := clock }),
          store ++ [{ id := newId, title := pyStrip s, dueDate := dueVal dd,
                      createdAt := clock, updatedAt := clock }])) ∧
      (App.create_todo cfg clock newId pr
          (App.jsonRequest "POST" "/todos" (some "Bearer t")
            (Json.obj (("title", Json.str s) :: ddFields dd))) store
        = .ok (App.jresp cfg 201 (RBody.item
            { id := newId, title := pyStrip s, dueDate := dueVal dd,
              createdAt := clock, updatedAt := clock,
              ownerSub := pr.sub, ownerUsername := pr.username }),
          store ++ [{ id := newId, title := pyStrip s, dueDate := dueVal dd,
                      createdAt := clock, updatedAt := clock,
                      ownerSub := pr.sub, ownerUsername := pr.username }]))) := by
  have hH := handler_create_eval origin clock newId store s dd hdd
  have hF := app_create_eval cfg clock newId pr store s dd hdd
  rw [hfresh] at hH hF
  refine ⟨?_, ?_, ?_, ?_⟩
  · rw [hH]
    by_cases h1 : pyStrip s = ""
    · simp [h1, Except.map, Handler.err, Handler.json_response]
    · by_cases h2 : s.length ≤ MAX_TITLE_LEN
      · simp [h1, h2, Nat.not_lt.mpr h2, Except.map, Handler.err, Handler.json_response]
      · have h3 : s.length > MAX_TITLE_LEN := Nat.lt_of_not_le h2
        simp [h1, h3, h2, Except.map, Handler.err, Handler.json_response]
  · intro h1
    rw [hH, hF]
    simp [h1]
  · intro h1 h3
    rw [hH]
    simp [h1, h3]
  · intro h1 h2
    rw [hH, hF]
    simp [h1, Nat.not_lt.mpr h2]

/-- C5 witness: the theorem applied concretely — `"  Buy milk "` is stored
trimmed as `"Buy milk"` with 201, and a whitespace-only title is rejected
as MISSING_TITLE. -/
theorem c5_title_validation_witness :
    (Handler.handle_create_todo none 4 "id1"
        (Handler.jsonEvent "POST" "/todos"
          (Json.obj (("title", Json.str "  Buy milk ") :: ddFields none))) []
      = .ok (Handler.json_response none 201 (RBody.item
          { id := "id1", title := pyStrip "  Buy milk ", dueDate := dueVal none,
            createdAt := 4, updatedAt := 4 }),
        [] ++ [{ id := "id1", title := pyStrip "  Buy milk ", dueDate := dueVal none,
                 createdAt := 4, updatedAt := 4 }])) ∧
    (Handler.handle_create_todo none 4 "id1"
        (Handler.jsonEvent "POST" "/todos"
          (Json.obj (("title", Json.str "   ") :: ddFields none))) []
      = .ok (Handler.err none 400 "MISSING_TITLE" "'title' is required", [])) := by
  constructor
  · exact ((c5_title_validation none {} 4 "id1" [] "  Buy milk " none {} (by decide)
      rfl).2.2.2 (by decide) (by decide)).1
  · exact ((c5_title_validation none {} 4 "id1" [] "   " none {} (by decide)
      rfl).2.1 (by decide)).1

/-- C4: every store write is guarded by its existence condition — create is
a conditional put that fails with 409 CONFLICT (store unchanged) when the
minted id already exists; update and delete are conditioned on existence
and fail with 404 NOT_FOUND (store unchanged, so update never creates) when
the id is absent. -/
theorem c4_conditional_writes (origin : Option String) (clock : Nat)
    (newId p todoId : String) (store : Store) (s t : String)
    (hs : pyStrip s ≠ "") (hslen : s.length ≤ MAX_TITLE_LEN)
    (ht : pyStrip t ≠ "") (htlen : t.length ≤ MAX_TITLE_LEN) :
    ((∃ it, storeGet store newId = some it) →
      Handler.handle_create_todo origin clock newId
        (Handler.jsonEvent "POST" "/todos" (Json.obj (("title", Json.str s) :: ddFields none)))
        store
      = .ok (Handler.err origin 409 "CONFLICT" "Item already exists (id collision)", store)) ∧
    (storeGet store newId = none →
      Handler.handle_create_todo origin clock newId
        (Handler.jsonEvent "POST" "/todos" (Json.obj (("title", Json.str s) :: ddFields none)))
        store
      = .ok (Handler.json_response origin 201 (RBody.item
          { id := newId, title := pyStrip s, dueDate := dueVal none,
            createdAt := clock, updatedAt := clock }),
        store ++ [{ id := newId, title := pyStrip s, dueDate := dueVal none,
                    createdAt := clock, updatedAt := clock }])) ∧
    (storeGet store todoId = none →
      Handler.handle_update_todo origin clock
        (Handler.jsonEvent "PUT" p (Json.obj [("title", Json.str t)])) todoId store
      = .ok (Handler.err origin 404 "NOT_FOUND" "Todo not found", store)) ∧
    (storeGet store todoId = none →
      Handler.handle_delete_todo origin todoId store
      = (Handler.err origin 404 "NOT_FOUND" "Todo not found", store)) := by
  refine ⟨?_, ?_, ?_, ?_⟩
  · rintro ⟨it, hit⟩
    rw [handler_create_eval origin clock newId store s none rfl]
    simp [hs, Nat.not_lt.mpr hslen, hit]
  · intro h
    rw [handler_create_eval origin clock newId store s none rfl]
    simp [hs, Nat.not_lt.mpr hslen, h]
  · intro h
    rw [handler_update_title_eval]
    simp [ht, Nat.not_lt.mpr htlen, h]
  · intro h
    unfold Handler.handle_delete_todo
    simp [h]

/-- C4 witness: the theorem applied concretely to a one-item store. -/
theorem c4_conditional_writes_witness :
    (Handler.handle_create_todo none 2 "a"
        (Handler.jsonEvent "POST" "/todos" (Json.obj (("title", Json.str "x") :: ddFields none)))
        [{ id := "a", title := "t", createdAt := 0, updatedAt := 0 }]
      = .ok (Handler.err none 409 "CONFLICT" "Item already exists (id collision)",
        [{ id := "a", title := "t", createdAt := 0, updatedAt := 0 }])) ∧
    (Handler.handle_update_todo none 2
        (Handler.jsonEvent "PUT" "/todos/zz" (Json.obj [("title", Json.str "x")])) "zz"
        [{ id := "a", title := "t", createdAt := 0, updatedAt := 0 }]
      = .ok (Handler.err none 404 "NOT_FOUND" "Todo not found",
        [{ id := "a", title := "t", createdAt := 0, updatedAt := 0 }])) ∧
    (Handler.handle_delete_todo none "zz"
        [{ id := "a", title := "t", createdAt := 0, updatedAt := 0 }]
      = (Handler.err none 404 "NOT_FOUND" "Todo not found",
        [{ id := "a", title := "t", createdAt := 0, updatedAt := 0 }])) := by
  have h := c4_conditional_writes none 2 "a" "/todos/zz" "zz"
    [{ id := "a", title := "t", createdAt := 0, updatedAt := 0 }] "x" "x"
    (by decide) (by decide) (by decide) (by decide)
  exact ⟨h.1 ⟨{ id := "a", title := "t", createdAt := 0, updatedAt := 0 }, rfl⟩,
    h.2.2.1 rfl, h.2.2.2 rfl⟩

/-- C6: a successful PUT changes only the supplied fields plus `updatedAt`:
a title-only update leaves `dueDate` at its prior value, a dueDate-only
update leaves `title` unchanged, `id`/`createdAt`/owner fields are never
mutated, and `updatedAt` becomes the current instant, which under a
monotone clock is not less than its pre-update value — in both shapes. -/
theorem c6_update_partial (origin : Option String) (cfg : App.AppConfig)
    (clock : Nat) (p todoId : String) (store : Store) (it : Item)
    (t : String) (d : Json)
    (hit : storeGet store todoId = some it)
    (hclk : it.updatedAt ≤ clock)
    (ht : pyStrip t ≠ "") (htlen : t.length ≤ MAX_TITLE_LEN)
    (hd : validate_due_date (some d) = true) :
    (Handler.handle_update_todo origin clock
        (Handler.jsonEvent "PUT" p (Json.obj [("title", Json.str t)])) todoId store
      = .ok (Handler.json_response origin 200
          (RBody.item { it with title := pyStrip t, updatedAt := clock }),
        storeReplace store todoId { it with title := pyStrip t, updatedAt := clock })) ∧
    (App.todo_by_id cfg clock
        (App.jsonRequest "PUT" p (some "Bearer t") (Json.obj [("title", Json.str t)]))
        todoId store
      = .ok (App.jresp cfg 200
          (RBody.item { it with title := pyStrip t, updatedAt := clock }),
        storeReplace store todoId { it with title := pyStrip t, updatedAt := clock })) ∧
    ({ it with title := pyStrip t, updatedAt := clock }.dueDate = it.dueDate ∧
     { it with title := pyStrip t, updatedAt := clock }.id = it.id ∧
     { it with title := pyStrip t, updatedAt := clock }.createdAt = it.createdAt ∧
     { it with title := pyStrip t, updatedAt := clock }.ownerSub = it.ownerSub ∧
     { it with title := pyStrip t, updatedAt := clock }.ownerUsername = it.ownerUsername ∧
     it.updatedAt ≤ { it with title := pyStrip t, updatedAt := clock }.updatedAt) ∧
    (Handler.handle_update_todo origin clock
        (Handler.jsonEvent "PUT" p (Json.obj [("dueDate", d)])) todoId store
      = .ok (Handler.json_response origin 200
          (RBody.item { it with dueDate := dueVal (some d), updatedAt := clock }),
        storeReplace store todoId { it with dueDate := dueVal (some d), updatedAt := clock })) ∧
    (App.todo_by_id cfg clock
        (App.jsonRequest "PUT" p (some "Bearer t") (Json.obj [("dueDate", d)]))
        todoId store
      = .ok (App.jresp cfg 200
          (RBody.item { it with dueDate := dueVal (some d), updatedAt := clock }),
        storeReplace store todoId { it with dueDate := dueVal (some d), updatedAt := clock })) ∧
    ({ it with dueDate := dueVal (some d), updatedAt := clock }.title = it.title ∧
     { it with dueDate := dueVal (some d), updatedAt := clock }.id = it.id ∧
     { it with dueDate := dueVal (some d), updatedAt := clock }.createdAt = it.createdAt ∧
     { it with dueDate := dueVal (some d), updatedAt := clock }.ownerSub = it.ownerSub ∧
     { it with dueDate := dueVal (some d), updatedAt := clock }.ownerUsername = it.ownerUsername ∧
     it.updatedAt ≤ { it with dueDate := dueVal (some d), updatedAt := clock }.updatedAt) := by
  refine ⟨?_, ?_, ⟨rfl, rfl, rfl, rfl, rfl, hclk⟩, ?_, ?_, ⟨rfl, rfl, rfl, rfl, rfl, hclk⟩⟩
  · rw [handler_update_title_eval]
    simp [ht, Nat.not_lt.mpr htlen, hit]
  · rw [app_update_title_eval]
    simp [ht, Nat.not_lt.mpr htlen, hit]
  · rw [handler_update_due_eval origin clock p todoId store d hd]
    simp [hit]
  · rw [app_update_due_eval cfg clock p todoId store d hd]
    simp [hit]

/-- C6 witness: the theorem applied concretely to a one-item store, with a
title-only update at a later instant. -/
theorem c6_update_partial_witness :
    Handler.handle_update_todo none 9
        (Handler.jsonEvent "PUT" "/todos/a" (Json.obj [("title", Json.str "New")])) "a"
        [{ id := "a", title := "t", dueDate := some "2030-01-01", createdAt := 1, updatedAt := 1 }]
      = .ok (Handler.json_response none 200
          (RBody.item { id := "a", title := pyStrip "New", dueDate := some "2030-01-01",
                        createdAt := 1, updatedAt := 9 }),
        storeReplace
          [{ id := "a", title := "t", dueDate := some "2030-01-01", createdAt := 1, updatedAt := 1 }]
          "a"
          { id := "a", title := pyStrip "New", dueDate := some "2030-01-01",
            createdAt := 1, updatedAt := 9 }) :=
  ( c6_update_partial none {} 9 "/todos/a" "a"
    [{ id := "a", title := "t", dueDate := some "2030-01-01", createdAt := 1, updatedAt := 1 }]
    { id := "a", title := "t", dueDate := some "2030-01-01", createdAt := 1, updatedAt := 1 }
    "New" (Json.str "2031-01-01") rfl (by decide) (by decide) (by decide) (by decide)).1

/-- Dispatch of the Flask app reduces to the auth-error response whenever
`require_auth` fails, on every auth-gated route. -/
theorem flask_app_auth_error (cfg : App.AppConfig) (env : App.AuthEnv)
    (now : Nat) (newId : String) (cache : App.JwksCache) (store : Store)
    (req : App.AppRequest) (resp : Response)
    (hroute : App.routeOf req.method req.path = App.FlaskRoute.createTodo ∨
              App.routeOf req.method req.path = App.FlaskRoute.listTodos ∨
              ∃ i, App.routeOf req.method req.path = App.FlaskRoute.todoById i)
    (h : (App.require_auth cfg env now cache req).2 = Except.error resp) :
    (App.flask_app cfg env now newId cache store req).1 = resp := by
  unfold App.flask_app
  rcases hroute with h1 | h1 | ⟨i, h1⟩ <;>
    (rw [h1]
     dsimp only
     rcases hra : App.require_auth cfg env now cache req with ⟨cache1, res⟩
     rw [hra] at h
     cases res with
     | error a => simp at h; subst h; rfl
     | ok pr => simp at h)

theorem require_auth_no_bearer (cfg : App.AppConfig) (env : App.AuthEnv)
    (now : Nat) (cache : App.JwksCache) (req : App.AppRequest)
    (h : ¬ strStarts "Bearer " (req.authorization.getD "") = true) :
    App.require_auth cfg env now cache req
      = (cache, .error (App.jerror cfg 401 "UNAUTHORIZED"
          "Missing or invalid Authorization header")) := by
  unfold App.require_auth
  simp [h]

theorem get_jwks_client_fresh (cfg : App.AppConfig) (env : App.AuthEnv)
    (now : Nat) (cache : App.JwksCache)
    (hclient : cache.client = true)
    (httl : ¬ cfg.jwksTtl + cache.lastInit < now) :
    App.get_jwks_client cfg env now cache = .ok cache := by
  unfold App.get_jwks_client
  simp [hclient, httl]

theorem get_jwks_client_refresh (cfg : App.AppConfig) (env : App.AuthEnv)
    (now : Nat) (cache : App.JwksCache)
    (hstale : cache.client = false ∨ cfg.jwksTtl + cache.lastInit < now)
    (hfetch : env.fetchOk = true) :
    App.get_jwks_client cfg env now cache
      = .ok { client := true, lastInit := now } := by
  unfold App.get_jwks_client
  rcases hstale with h | h <;> simp [h, hfetch]

theorem get_jwks_client_down (cfg : App.AppConfig) (env : App.AuthEnv)
    (now : Nat) (cache : App.JwksCache)
    (hstale : cache.client = false ∨ cfg.jwksTtl + cache.lastInit < now)
    (hfetch : env.fetchOk = false) :
    App.get_jwks_client cfg env now cache = .error () := by
  unfold App.get_jwks_client
  rcases hstale with h | h <;> simp [h, hfetch]

theorem require_auth_snd_expired (cfg : App.AppConfig) (env : App.AuthEnv)
    (now : Nat) (cache : App.JwksCache) (req : App.AppRequest) (t : String)
    (ha : req.authorization = some ("Bearer " ++ t))
    (hfetch : env.fetchOk = true)
    (hdec : env.decode (pyStrip t) = App.DecodeOutcome.expired) :
    (App.require_auth cfg env now cache req).2
      = .error (App.jerror cfg 401 "TOKEN_EXPIRED" "Token expired") := by
  unfold App.require_auth App.decode_and_verify
  rw [ha]
  simp only [Option.getD_some, strStarts_bearer, strDrop_bearer, not_true]
  by_cases hs : cache.client = false ∨ cfg.jwksTtl + cache.lastInit < now
  · rw [get_jwks_client_refresh cfg env now cache hs hfetch, hdec]
    rfl
  · push_neg at hs
    have hc : cache.client = true := by
      cases hcl : cache.client
      · exact absurd hcl hs.1
      · rfl
    rw [get_jwks_client_fresh cfg env now cache hc (Nat.not_lt.mpr hs.2), hdec]
    rfl

theorem require_auth_snd_jwks_down (cfg : App.AppConfig) (env : App.AuthEnv)
    (now : Nat) (cache : App.JwksCache) (req : App.AppRequest) (t : String)
    (ha : req.authorization = some ("Bearer " ++ t))
    (hstale : cache.client = false ∨ cfg.jwksTtl + cache.lastInit < now)
    (hfetch : env.fetchOk = false) :
    (App.require_auth cfg env now cache req).2
      = .error (App.jerror cfg 502 "JWKS_FETCH_FAILED" "Unable to retrieve JWKS") := by
  unfold App.require_auth App.decode_and_verify
  rw [ha]
  simp only [Option.getD_some, strStarts_bearer, strDrop_bearer, not_true]
  rw [get_jwks_client_down cfg env now cache hstale hfetch]
  rfl

/-- C1, counterexample: the Lambda handler performs no token verification —
a POST /todos carrying no Authorization header at all is served with 201
and the item is written, instead of the claimed 401 UNAUTHORIZED. -/
theorem c1_counterexample :
    Handler.lambda_handler none 7 "id1"
      (Handler.jsonEvent "POST" "/todos" (Json.obj [("title", Json.str "Buy milk")])) []
    = (Handler.json_response none 201 (RBody.item
        { id := "id1", title := "Buy milk", createdAt := 7, updatedAt := 7 }),
      [{ id := "id1", title := "Buy milk", createdAt := 7, updatedAt := 7 }]) := by
  rfl

/-- C1 (amended): in the Flask app, every request routed to one of the
auth-gated todo views — whatever the method — is answered 401 UNAUTHORIZED
when the Authorization header is missing or not of the `Bearer <token>`
shape, and 401 TOKEN_EXPIRED when the bearer token verifies as expired
(with the key set reachable); the Lambda handler has no auth layer, so the
claim holds only for the Flask shape. -/
theorem c1_flask_auth_gate (cfg : App.AppConfig) (env : App.AuthEnv)
    (now : Nat) (newId : String) (cache : App.JwksCache) (store : Store)
    (req : App.AppRequest)
    (hroute : App.routeOf req.method req.path = App.FlaskRoute.createTodo ∨
              App.routeOf req.method req.path = App.FlaskRoute.listTodos ∨
              ∃ i, App.routeOf req.method req.path = App.FlaskRoute.todoById i) :
    (¬ strStarts "Bearer " (req.authorization.getD "") = true →
      (App.flask_app cfg env now newId cache store req).1
        = App.jerror cfg 401 "UNAUTHORIZED" "Missing or invalid Authorization header") ∧
    (∀ t, req.authorization = some ("Bearer " ++ t) →
      env.fetchOk = true →
      env.decode (pyStrip t) = App.DecodeOutcome.expired →
      (App.flask_app cfg env now newId cache store req).1
        = App.jerror cfg 401 "TOKEN_EXPIRED" "Token expired") := by
  constructor
  · intro h
    exact flask_app_auth_error cfg env now newId cache store req _ hroute
      (by rw [require_auth_no_bearer cfg env now cache req h])
  · intro t ha hfetch hdec
    exact flask_app_auth_error cfg env now newId cache store req _ hroute
      (require_auth_snd_expired cfg env now cache req t ha hfetch hdec)

/-- C1 witness: the amended theorem applied concretely — no header gives
401 UNAUTHORIZED, and an expired bearer token gives 401 TOKEN_EXPIRED. -/
theorem c1_flask_auth_gate_witness :
    ((App.flask_app {} { fetchOk := true, decode := fun _ => .ok {} } 0 "id" {} []
        { method := "POST", path := "/todos" }).1
      = App.jerror {} 401 "UNAUTHORIZED" "Missing or invalid Authorization header") ∧
    ((App.flask_app {} { fetchOk := true, decode := fun _ => .expired } 0 "id" {} []
        { method := "POST", path := "/todos",
          authorization := some ("Bearer " ++ "tok") }).1
      = App.jerror {} 401 "TOKEN_EXPIRED" "Token expired") := by
  constructor
  · exact (c1_flask_auth_gate {} { fetchOk := true, decode := fun _ => .ok {} } 0 "id" {} []
      { method := "POST", path := "/todos" } (Or.inl rfl)).1 (by decide)
  · exact (c1_flask_auth_gate {} { fetchOk := true, decode := fun _ => .expired } 0 "id" {} []
      { method := "POST", path := "/todos", authorization := some ("Bearer " ++ "tok") }
      (Or.inl rfl)).2 "tok" rfl rfl rfl

/-- C3: in the Flask app the `require_auth` decorator runs before the
in-view OPTIONS branches, so an OPTIONS preflight on /todos with no
Authorization header — which a browser preflight never carries — is
rejected 401 UNAUTHORIZED instead of the intended immediate 204; the
in-view `if request.method == "OPTIONS"` branches show the 204 was the
intent, and the Lambda handler answers the same preflight correctly with
an empty 204 carrying the CORS headers, before any auth or parsing. -/
theorem c3_flask_options_requires_auth :
    ((App.flask_app {} { fetchOk := true, decode := fun _ => .ok {} } 0 "id" {} []
        { method := "OPTIONS", path := "/todos" }).1
      = App.jerror {} 401 "UNAUTHORIZED" "Missing or invalid Authorization header") ∧
    (Handler.lambda_handler none 0 "id"
        { path := some "/todos", httpMethod := some "OPTIONS" } []
      = ({ statusCode := 204, headers := allHeaders none, body := RBody.empty }, [])) := by
  exact ⟨rfl, rfl⟩

/-- C9: when the signing-key set must be (re)fetched and the key endpoint
is unreachable, every auth-gated request is answered 502 JWKS_FETCH_FAILED
— for every verification oracle, so the caller's credentials are never
evaluated; while the cache is fresh (TTL not elapsed) the cached client is
reused with no fetch at all, a successful refresh stores the fetch time,
and the TTL configuration defaults to 3600 seconds. -/
theorem c9_jwks_failure_and_cache (cfg : App.AppConfig) (now : Nat)
    (newId : String) (store : Store) (req : App.AppRequest) (t : String)
    (hroute : App.routeOf req.method req.path = App.FlaskRoute.createTodo ∨
              App.routeOf req.method req.path = App.FlaskRoute.listTodos ∨
              ∃ i, App.routeOf req.method req.path = App.FlaskRoute.todoById i)
    (ha : req.authorization = some ("Bearer " ++ t)) :
    (∀ (d : String → App.DecodeOutcome) (cache : App.JwksCache),
      (cache.client = false ∨ cfg.jwksTtl + cache.lastInit < now) →
      (App.flask_app cfg { fetchOk := false, decode := d } now newId cache store req).1
        = App.jerror cfg 502 "JWKS_FETCH_FAILED" "Unable to retrieve JWKS") ∧
    (∀ (env : App.AuthEnv) (cache : App.JwksCache),
      cache.client = true → ¬ cfg.jwksTtl + cache.lastInit < now →
      App.get_jwks_client cfg env now cache = .ok cache) ∧
    (∀ (env : App.AuthEnv) (cache : App.JwksCache),
      (cache.client = false ∨ cfg.jwksTtl + cache.lastInit < now) →
      env.fetchOk = true →
      App.get_jwks_client cfg env now cache = .ok { client := true, lastInit := now }) ∧
    App.jwksTtlOfEnv none = some 3600 := by
  refine ⟨?_, ?_, ?_, ?_⟩
  · intro d cache hstale
    exact flask_app_auth_error cfg { fetchOk := false, decode := d } now newId cache store req
      _ hroute
      (require_auth_snd_jwks_down cfg { fetchOk := false, decode := d } now cache req t
        ha hstale rfl)
  · intro env cache hc ht
    exact get_jwks_client_fresh cfg env now cache hc ht
  · intro env cache hstale hf
    exact get_jwks_client_refresh cfg env now cache hstale hf
  · rfl

/-- C9 witness: the theorem applied concretely — with a cold cache and the
endpoint down, POST /todos yields 502 even under an oracle that would
accept the token; a fresh cache is reused unchanged; a cold cache with the
endpoint up refreshes to the current instant. -/
theorem c9_jwks_failure_and_cache_witness :
    ((App.flask_app {} { fetchOk := false, decode := fun _ => .ok {} } 0 "id" {} []
        { method := "POST", path := "/todos", authorization := some ("Bearer " ++ "tok") }).1
      = App.jerror {} 502 "JWKS_FETCH_FAILED" "Unable to retrieve JWKS") ∧
    (App.get_jwks_client {} { fetchOk := false, decode := fun _ => .ok {} } 0
        { client := true, lastInit := 5 }
      = .ok { client := true, lastInit := 5 }) ∧
    (App.get_jwks_client {} { fetchOk := true, decode := fun _ => .ok {} } 0 {}
      = .ok { client := true, lastInit := 0 }) ∧
    App.jwksTtlOfEnv none = some 3600 := by
  have h := c9_jwks_failure_and_cache {} 0 "id" []
    { method := "POST", path := "/todos", authorization := some ("Bearer " ++ "tok") }
    "tok" (Or.inl rfl) rfl
  exact ⟨h.1 (fun _ => .ok {}) {} (Or.inl rfl),
    h.2.1 { fetchOk := false, decode := fun _ => .ok {} } { client := true, lastInit := 5 }
      rfl (by decide),
    h.2.2.1 { fetchOk := true, decode := fun _ => .ok {} } {} (Or.inl rfl) rfl,
    h.2.2.2⟩

/-- Canonical Lambda event used for comparing the two deployment shapes. -/
def c2Ev (m p : String) (ct : Option String) (rb : RawBody)
    (lim cur : Option String) : Handler.Event :=
  Handler.mkEvent m p ct (some rb) (qsOf lim cur)

/-- Canonical Flask request used for comparing the two deployment shapes. -/
def c2Req (m p tok : String) (ct : Option String) (rb : RawBody)
    (lim cur : Option String) : App.AppRequest :=
  { method := m, path := p, authorization := some ("Bearer " ++ tok),
    contentType := ct, body := rb, queryLimit := lim, queryCursor := cur }

theorem require_auth_ok (cfg : App.AppConfig) (env : App.AuthEnv) (now : Nat)
    (cache : App.JwksCache) (req : App.AppRequest) (t : String) (claims : App.Claims)
    (ha : req.authorization = some ("Bearer " ++ t))
    (hfetch : env.fetchOk = true)
    (hdec : env.decode (pyStrip t) = App.DecodeOutcome.ok claims)
    (htu : cfg.acceptedTokenUse = "access")
    (hcl : claims.tokenUse = some "access")
    (hgrp : cfg.requiredGroup = none) :
    (App.require_auth cfg env now cache req).2
      = .ok { sub := claims.sub,
              username := pyOrOS claims.username claims.cognitoUsername } := by
  unfold App.require_auth App.decode_and_verify
  rw [ha]
  simp only [Option.getD_some, strStarts_bearer, strDrop_bearer, not_true]
  have htuc : ¬ (cfg.acceptedTokenUse ≠ "" ∧ claims.tokenUse ≠ some cfg.acceptedTokenUse) := by
    rw [htu, hcl]
    simp
  by_cases hs : cache.client = false ∨ cfg.jwksTtl + cache.lastInit < now
  · rw [get_jwks_client_refresh cfg env now cache hs hfetch, hdec]
    simp only [if_neg htuc, hgrp]
    rfl
  · push_neg at hs
    have hc : cache.client = true := by
      cases hcl2 : cache.client
      · exact absurd hcl2 hs.1
      · rfl
    rw [get_jwks_client_fresh cfg env now cache hc (Nat.not_lt.mpr hs.2), hdec]
    simp only [if_neg htuc, hgrp]
    rfl

theorem c2_parse_agree (origin : Option String) (cfg : App.AppConfig)
    (m p tok : String) (ct : Option String) (rb : RawBody) (lim cur : Option String)
    (hcors : cfg.corsOrigin = origin) (hrb : rb ≠ RawBody.empty) :
    Handler.parse_json_body origin (c2Ev m p ct rb lim cur)
      = App.parse_json_body cfg (c2Req m p tok ct rb lim cur) := by
  subst hcors
  unfold c2Ev
  rw [handler_parse_eval]
  unfold App.parse_json_body c2Req
  dsimp only
  by_cases hct : ctMatches (ct.getD "") = true
  · rw [if_pos hct, if_neg (by simp [hct])]
    cases rb with
    | empty => exact absurd rfl hrb
    | malformed => rfl
    | wellFormed v => rfl
  · rw [if_neg (by simp [hct]), if_pos (by simp [hct])]
    rfl

theorem stripOwner_append (st : Store) (it : Item) :
    stripOwnerStore (st ++ [it]) = stripOwnerStore st ++ [it.stripOwner] := by
  simp [stripOwnerStore]

theorem create_equiv (origin : Option String) (cfg : App.AppConfig)
    (now : Nat) (newId : String) (pr : App.Principal) (store : Store)
    (tok : String) (ct : Option String) (rb : RawBody) (lim cur : Option String)
    (hcors : cfg.corsOrigin = origin) (hrb : rb ≠ RawBody.empty) :
    stripRS (Handler.handle_create_todo origin now newId
        (c2Ev "POST" "/todos" ct rb lim cur) store)
      = stripRS (App.create_todo cfg now newId pr
        (c2Req "POST" "/todos" tok ct rb lim cur) store) := by
  subst hcors
  unfold Handler.handle_create_todo App.create_todo
  rw [c2_parse_agree cfg.corsOrigin cfg "POST" "/todos" tok ct rb lim cur rfl hrb]
  rw [show (c2Req "POST" "/todos" tok ct rb lim cur).method = "POST" from rfl]
  rw [if_neg (by decide : ¬ ("POST" : String) = "OPTIONS")]
  cases hp : App.parse_json_body cfg (c2Req "POST" "/todos" tok ct rb lim cur) with
  | error r => rfl
  | ok v =>
    dsimp only
    cases ht : pyDictGet v "title" with
    | error e => rfl
    | ok title? =>
      dsimp only
      cases hd : pyDictGet v "dueDate" with
      | error e => rfl
      | ok due? =>
        dsimp only
        cases title? with
        | none => rfl
        | some j =>
          cases j with
          | str s =>
            dsimp only
            by_cases h1 : pyStrip s = ""
            · simp [h1]
              rfl
            · by_cases h2 : s.length > MAX_TITLE_LEN
              · simp [h1, h2]
                rfl
              · by_cases h3 : validate_due_date due? = true
                · cases hg : storeGet store newId with
                  | some it =>
                      simp [h1, h2, h3, hg]
                      rfl
                  | none =>
                      simp [h1, h2, h3, hg, stripRS, Except.map, stripOwnerStore,
                        List.map_append, Item.stripOwner, Response.stripOwner,
                        RBody.stripOwner, Handler.err, App.jerror,
                        Handler.json_response, App.jresp]
                · have h3f : validate_due_date due? = false := by
                    cases hvd : validate_due_date due?
                    · rfl
                    · exact absurd hvd h3
                  simp [h1, h2, h3f]
                  rfl
          | null => rfl
          | bool b => rfl
          | num n => rfl
          | arr xs => rfl
          | obj kvs => rfl

theorem update_equiv (origin : Option String) (cfg : App.AppConfig)
    (now : Nat) (todoId : String) (store : Store)
    (tok : String) (ct : Option String) (rb : RawBody) (lim cur : Option String)
    (hcors : cfg.corsOrigin = origin) (hrb : rb ≠ RawBody.empty) :
    stripRS (Handler.handle_update_todo origin now
        (c2Ev "PUT" ("/todos/" ++ todoId) ct rb lim cur) todoId store)
      = stripRS (App.todo_by_id cfg now
        (c2Req "PUT" ("/todos/" ++ todoId) tok ct rb lim cur) todoId store) := by
  subst hcors
  unfold Handler.handle_update_todo App.todo_by_id
  rw [c2_parse_agree cfg.corsOrigin cfg "PUT" ("/todos/" ++ todoId) tok ct rb lim cur rfl hrb]
  rw [show (c2Req "PUT" ("/todos/" ++ todoId) tok ct rb lim cur).method = "PUT" from rfl]
  rw [if_neg (by decide : ¬ ("PUT" : String) = "OPTIONS"),
    if_neg (by decide : ¬ ("PUT" : String) = "GET"),
    if_pos (rfl : ("PUT" : String) = "PUT")]
  rfl

theorem get_equiv (origin : Option String) (cfg : App.AppConfig) (now : Nat)
    (todoId : String) (store : Store) (tok : String) (ct : Option String)
    (rb : RawBody) (lim cur : Option String)
    (hcors : cfg.corsOrigin = origin) :
    stripRS (.ok (Handler.handle_get_todo origin todoId store, store))
      = stripRS (App.todo_by_id cfg now
        (c2Req "GET" ("/todos/" ++ todoId) tok ct rb lim cur) todoId store) := by
  subst hcors
  unfold Handler.handle_get_todo App.todo_by_id
  rw [show (c2Req "GET" ("/todos/" ++ todoId) tok ct rb lim cur).method = "GET" from rfl]
  rw [if_neg (by decide : ¬ ("GET" : String) = "OPTIONS"),
    if_pos (rfl : ("GET" : String) = "GET")]
  cases storeGet store todoId <;> rfl

theorem delete_equiv (origin : Option String) (cfg : App.AppConfig) (now : Nat)
    (todoId : String) (store : Store) (tok : String) (ct : Option String)
    (rb : RawBody) (lim cur : Option String)
    (hcors : cfg.corsOrigin = origin) :
    stripRS (.ok (Handler.handle_delete_todo origin todoId store))
      = stripRS (App.todo_by_id cfg now
        (c2Req "DELETE" ("/todos/" ++ todoId) tok ct rb lim cur) todoId store) := by
  subst hcors
  unfold Handler.handle_delete_todo App.todo_by_id
  rw [show (c2Req "DELETE" ("/todos/" ++ todoId) tok ct rb lim cur).method = "DELETE" from rfl]
  rw [if_neg (by decide : ¬ ("DELETE" : String) = "OPTIONS"),
    if_neg (by decide : ¬ ("DELETE" : String) = "GET"),
    if_neg (by decide : ¬ ("DELETE" : String) = "PUT"),
    if_pos (rfl : ("DELETE" : String) = "DELETE")]
  cases storeGet store todoId <;> rfl

theorem list_equiv (origin : Option String) (cfg : App.AppConfig)
    (p : String) (store : Store) (tok : String) (ct : Option String)
    (rb : RawBody) (lim cur : Option String)
    (hcors : cfg.corsOrigin = origin) :
    Handler.handle_list_todos origin (c2Ev "GET" p ct rb lim cur) store
      = App.list_todos cfg (c2Req "GET" p tok ct rb lim cur) store := by
  subst hcors
  unfold Handler.handle_list_todos App.list_todos
  rw [show (c2Req "GET" p tok ct rb lim cur).method = "GET" from rfl]
  rw [if_neg (by decide : ¬ ("GET" : String) = "OPTIONS")]
  dsimp only
  rw [show (c2Ev "GET" p ct rb lim cur).queryStringParameters = qsOf lim cur from rfl]
  rw [qsOf_limit, qsOf_cursor]
  rfl

theorem routeOf_todoById (m i : String) (hi : i ≠ "") (hs : ¬ i.data.contains '/')
    (hm : m = "GET" ∨ m = "PUT" ∨ m = "DELETE" ∨ m = "OPTIONS") :
    App.routeOf m ("/todos/" ++ i) = App.FlaskRoute.todoById i := by
  unfold App.routeOf App.todoIdOf
  rw [if_neg (todos_ne_health i), if_neg (todos_ne_todos i)]
  rw [show strStarts "/todos/" ("/todos/" ++ i) = true from strStarts_todos i]
  dsimp only
  rw [strDrop_todos]
  have hc : (i ≠ "" ∧ ¬ i.data.contains '/' = true) := ⟨hi, hs⟩
  simp only [if_pos hc, if_true]
  rw [if_pos hm]

theorem get_path_method_c2 (m p : String) (ct : Option String) (rb : RawBody)
    (lim cur : Option String) (hp : p ≠ "") :
    Handler.get_path_method (c2Ev m p ct rb lim cur) = (p, strUpper m) := by
  unfold Handler.get_path_method c2Ev Handler.mkEvent
  simp [pyOrS, hp]

theorem flask_app_create_result (cfg : App.AppConfig) (env : App.AuthEnv)
    (now : Nat) (newId : String) (cache : App.JwksCache) (store : Store)
    (req : App.AppRequest) (pr : App.Principal)
    (hr : App.routeOf req.method req.path = App.FlaskRoute.createTodo)
    (h : (App.require_auth cfg env now cache req).2 = Except.ok pr) :
    ((App.flask_app cfg env now newId cache store req).1,
     (App.flask_app cfg env now newId cache store req).2.2)
    = (match App.create_todo cfg now newId pr req store with
       | .error _ => (App.jerror cfg 500 "INTERNAL_ERROR" "Unexpected server error", store)
       | .ok rs => rs) := by
  unfold App.flask_app
  rw [hr]
  dsimp only
  rcases hra : App.require_auth cfg env now cache req with ⟨c1, res⟩
  rw [hra] at h
  dsimp only at h
  subst h
  dsimp only
  cases App.create_todo cfg now newId pr req store with
  | error e => rfl
  | ok rs =>
      rcases rs with ⟨resp, st1⟩
      rfl

theorem flask_app_list_result (cfg : App.AppConfig) (env : App.AuthEnv)
    (now : Nat) (newId : String) (cache : App.JwksCache) (store : Store)
    (req : App.AppRequest) (pr : App.Principal)
    (hr : App.routeOf req.method req.path = App.FlaskRoute.listTodos)
    (h : (App.require_auth cfg env now cache req).2 = Except.ok pr) :
    ((App.flask_app cfg env now newId cache store req).1,
     (App.flask_app cfg env now newId cache store req).2.2)
    = (App.list_todos cfg req store, store) := by
  unfold App.flask_app
  rw [hr]
  dsimp only
  rcases hra : App.require_auth cfg env now cache req with ⟨c1, res⟩
  rw [hra] at h
  dsimp only at h
  subst h
  rfl

theorem flask_app_todoById_result (cfg : App.AppConfig) (env : App.AuthEnv)
    (now : Nat) (newId : String) (cache : App.JwksCache) (store : Store)
    (req : App.AppRequest) (pr : App.Principal) (i : String)
    (hr : App.routeOf req.method req.path = App.FlaskRoute.todoById i)
    (h : (App.require_auth cfg env now cache req).2 = Except.ok pr) :
    ((App.flask_app cfg env now newId cache store req).1,
     (App.flask_app cfg env now newId cache store req).2.2)
    = (match App.todo_by_id cfg now req i store with
       | .error _ => (App.jerror cfg 500 "INTERNAL_ERROR" "Unexpected server error", store)
       | .ok rs => rs) := by
  unfold App.flask_app
  rw [hr]
  dsimp only
  rcases hra : App.require_auth cfg env now cache req with ⟨c1, res⟩
  rw [hra] at h
  dsimp only at h
  subst h
  dsimp only
  cases App.todo_by_id cfg now req i store with
  | error e => rfl
  | ok rs =>
      rcases rs with ⟨resp, st1⟩
      rfl

theorem todos_ne_empty (i : String) : ("/todos/" ++ i) ≠ "" := by
  intro h
  have h2 := congrArg String.data h
  simp [String.data_append] at h2

theorem lambda_options (origin : Option String) (now : Nat) (newId : String)
    (ct : Option String) (rb : RawBody) (lim cur : Option String)
    (store : Store) (p : String) (hp : p ≠ "") :
    Handler.lambda_handler origin now newId (c2Ev "OPTIONS" p ct rb lim cur) store
      = ({ statusCode := 204, headers := allHeaders origin, body := RBody.empty }, store) := by
  unfold Handler.lambda_handler
  rw [get_path_method_c2 "OPTIONS" p ct rb lim cur hp]
  rfl

theorem lambda_create_result (origin : Option String) (now : Nat) (newId : String)
    (ct : Option String) (rb : RawBody) (lim cur : Option String) (store : Store) :
    Handler.lambda_handler origin now newId (c2Ev "POST" "/todos" ct rb lim cur) store
      = (match Handler.handle_create_todo origin now newId
            (c2Ev "POST" "/todos" ct rb lim cur) store with
         | .error _ => (Handler.err origin 500 "INTERNAL_ERROR" "Unexpected server error", store)
         | .ok rs => rs) := by
  unfold Handler.lambda_handler
  rw [get_path_method_c2 "POST" "/todos" ct rb lim cur (by decide)]
  dsimp only
  cases Handler.handle_create_todo origin now newId (c2Ev "POST" "/todos" ct rb lim cur) store with
  | error e => rfl
  | ok rs => rfl

theorem lambda_list_result (origin : Option String) (now : Nat) (newId : String)
    (ct : Option String) (rb : RawBody) (lim cur : Option String) (store : Store) :
    Handler.lambda_handler origin now newId (c2Ev "GET" "/todos" ct rb lim cur) store
      = (Handler.handle_list_todos origin (c2Ev "GET" "/todos" ct rb lim cur) store, store) := by
  rfl

theorem lambda_get_todoById (origin : Option String) (now : Nat) (newId : String)
    (ct : Option String) (rb : RawBody) (lim cur : Option String)
    (store : Store) (i : String) (hs : ¬ i.data.contains '/') :
    Handler.lambda_handler origin now newId
        (c2Ev "GET" ("/todos/" ++ i) ct rb lim cur) store
      = (Handler.handle_get_todo origin i store, store) := by
  unfold Handler.lambda_handler
  rw [get_path_method_c2 "GET" _ ct rb lim cur (todos_ne_empty i)]
  dsimp only
  simp only [show strUpper "GET" = "GET" from rfl]
  simp [todos_ne_health i, todos_ne_todos i, strStarts_todos, lastSegment_todos i hs]

theorem lambda_put_todoById (origin : Option String) (now : Nat) (newId : String)
    (ct : Option String) (rb : RawBody) (lim cur : Option String)
    (store : Store) (i : String) (hs : ¬ i.data.contains '/') :
    Handler.lambda_handler origin now newId
        (c2Ev "PUT" ("/todos/" ++ i) ct rb lim cur) store
      = (match Handler.handle_update_todo origin now
            (c2Ev "PUT" ("/todos/" ++ i) ct rb lim cur) i store with
         | .error _ => (Handler.err origin 500 "INTERNAL_ERROR" "Unexpected server error", store)
         | .ok rs => rs) := by
  unfold Handler.lambda_handler
  rw [get_path_method_c2 "PUT" _ ct rb lim cur (todos_ne_empty i)]
  dsimp only
  simp only [show strUpper "PUT" = "PUT" from rfl]
  simp [todos_ne_health i, todos_ne_todos i, strStarts_todos, lastSegment_todos i hs]
  cases Handler.handle_update_todo origin now
      (c2Ev "PUT" ("/todos/" ++ i) ct rb lim cur) i store with
  | error e => rfl
  | ok rs => rfl

theorem lambda_delete_todoById (origin : Option String) (now : Nat) (newId : String)
    (ct : Option String) (rb : RawBody) (lim cur : Option String)
    (store : Store) (i : String) (hs : ¬ i.data.contains '/') :
    Handler.lambda_handler origin now newId
        (c2Ev "DELETE" ("/todos/" ++ i) ct rb lim cur) store
      = Handler.handle_delete_todo origin i store := by
  unfold Handler.lambda_handler
  rw [get_path_method_c2 "DELETE" _ ct rb lim cur (todos_ne_empty i)]
  dsimp only
  simp only [show strUpper "DELETE" = "DELETE" from rfl]
  simp [todos_ne_health i, todos_ne_todos i, strStarts_todos, lastSegment_todos i hs]

/-- C2, amended: for every request within the contract routes (health,
preflight, create, list, get, update, delete), the Flask app and the Lambda
handler produce the same outcome — the same response and the same resulting
store — modulo the owner field that only the Flask variant records, provided
the Flask side is given passing credentials (since only it performs auth),
both sides see the same CORS origin, and the raw body is not the absent one
(which Flask alone rejects up front). The unqualified claim is refuted by
c2_counterexample: the Lambda handler performs no auth. -/
theorem c2_core_equivalence (origin : Option String) (cfg : App.AppConfig)
    (env : App.AuthEnv) (claims : App.Claims) (now : Nat) (newId : String)
    (cache : App.JwksCache) (store : Store) (method path : String)
    (tok : String) (ct : Option String) (rb : RawBody) (lim cur : Option String)
    (hcors : cfg.corsOrigin = origin)
    (htu : cfg.acceptedTokenUse = "access")
    (hgrp : cfg.requiredGroup = none)
    (hcl : claims.tokenUse = some "access")
    (hfetch : env.fetchOk = true)
    (hdec : env.decode (pyStrip tok) = App.DecodeOutcome.ok claims)
    (hrb : rb ≠ RawBody.empty)
    (hroute :
      (method = "GET" ∧ path = "/health") ∨
      (method = "OPTIONS" ∧ (path = "/health" ∨ path = "/todos" ∨
        ∃ i, path = "/todos/" ++ i ∧ i ≠ "" ∧ ¬ i.data.contains '/')) ∨
      (method = "POST" ∧ path = "/todos") ∨
      (method = "GET" ∧ path = "/todos") ∨
      ((method = "GET" ∨ method = "PUT" ∨ method = "DELETE") ∧
        ∃ i, path = "/todos/" ++ i ∧ i ≠ "" ∧ ¬ i.data.contains '/')) :
    ((Handler.lambda_handler origin now newId
        (c2Ev method path ct rb lim cur) store).1.stripOwner,
     stripOwnerStore (Handler.lambda_handler origin now newId
        (c2Ev method path ct rb lim cur) store).2)
    = ((App.flask_app cfg env now newId cache store
        (c2Req method path tok ct rb lim cur)).1.stripOwner,
       stripOwnerStore (App.flask_app cfg env now newId cache store
        (c2Req method path tok ct rb lim cur)).2.2) := by
  subst hcors
  rcases hroute with ⟨hm, hp⟩ | ⟨hm, hp⟩ | ⟨hm, hp⟩ | ⟨hm, hp⟩ | ⟨hm, i, hp, hi, hs⟩
  · -- GET /health
    subst hm hp
    rfl
  · -- OPTIONS preflight
    subst hm
    rcases hp with hp | hp | ⟨i, hp, hi, hs⟩
    · subst hp
      rfl
    · subst hp
      have hauth := require_auth_ok cfg env now cache
        (c2Req "OPTIONS" "/todos" tok ct rb lim cur) tok claims rfl hfetch hdec htu hcl hgrp
      have hf := (flask_app_create_result cfg env now newId cache store
        (c2Req "OPTIONS" "/todos" tok ct rb lim cur) _ rfl hauth).trans rfl
      injection hf with e1 e2
      rw [lambda_options cfg.corsOrigin now newId ct rb lim cur store "/todos" (by decide),
        e1, e2]
    · subst hp
      have hauth := require_auth_ok cfg env now cache
        (c2Req "OPTIONS" ("/todos/" ++ i) tok ct rb lim cur) tok claims rfl hfetch hdec htu hcl hgrp
      have hf := (flask_app_todoById_result cfg env now newId cache store
        (c2Req "OPTIONS" ("/todos/" ++ i) tok ct rb lim cur) _ i
        (routeOf_todoById "OPTIONS" i hi hs (Or.inr (Or.inr (Or.inr rfl)))) hauth).trans rfl
      injection hf with e1 e2
      rw [lambda_options cfg.corsOrigin now newId ct rb lim cur store ("/todos/" ++ i)
        (todos_ne_empty i), e1, e2]
  · -- POST /todos
    subst hm hp
    have hauth := require_auth_ok cfg env now cache
      (c2Req "POST" "/todos" tok ct rb lim cur) tok claims rfl hfetch hdec htu hcl hgrp
    have heq := create_equiv cfg.corsOrigin cfg now newId
      { sub := claims.sub, username := pyOrOS claims.username claims.cognitoUsername }
      store tok ct rb lim cur rfl hrb
    have hf := flask_app_create_result cfg env now newId cache store
      (c2Req "POST" "/todos" tok ct rb lim cur) _ rfl hauth
    rw [lambda_create_result]
    cases hH : Handler.handle_create_todo cfg.corsOrigin now newId
        (c2Ev "POST" "/todos" ct rb lim cur) store with
    | error e =>
      cases hF : App.create_todo cfg now newId
          { sub := claims.sub, username := pyOrOS claims.username claims.cognitoUsername }
          (c2Req "POST" "/todos" tok ct rb lim cur) store with
      | error e2 =>
          rw [hF] at hf
          dsimp only at hf
          injection hf with e1 e2
          rw [e1, e2]
          rfl
      | ok rs =>
          rw [hH, hF] at heq
          simp [stripRS, Except.map] at heq
    | ok rs =>
      rcases rs with ⟨r1, s1⟩
      cases hF : App.create_todo cfg now newId
          { sub := claims.sub, username := pyOrOS claims.username claims.cognitoUsername }
          (c2Req "POST" "/todos" tok ct rb lim cur) store with
      | error e2 =>
          rw [hH, hF] at heq
          simp [stripRS, Except.map] at heq
      | ok rs2 =>
          rcases rs2 with ⟨r2, s2⟩
          rw [hF] at hf
          dsimp only at hf
          injection hf with e1 e2
          rw [e1, e2]
          rw [hH, hF] at heq
          simp only [stripRS, Except.map, Except.ok.injEq] at heq
          try dsimp only
          exact heq
  · -- GET /todos
    subst hm hp
    have hauth := require_auth_ok cfg env now cache
      (c2Req "GET" "/todos" tok ct rb lim cur) tok claims rfl hfetch hdec htu hcl hgrp
    have hf := flask_app_list_result cfg env now newId cache store
      (c2Req "GET" "/todos" tok ct rb lim cur) _ rfl hauth
    injection hf with e1 e2
    rw [lambda_list_result, e1, e2,
      list_equiv cfg.corsOrigin cfg "/todos" store tok ct rb lim cur rfl]
  · -- GET | PUT | DELETE /todos/{id}
    subst hp
    rcases hm with hm | hm | hm
    · -- GET
      subst hm
      have hauth := require_auth_ok cfg env now cache
        (c2Req "GET" ("/todos/" ++ i) tok ct rb lim cur) tok claims rfl hfetch hdec htu hcl hgrp
      have heq := get_equiv cfg.corsOrigin cfg now i store tok ct rb lim cur rfl
      have hf := flask_app_todoById_result cfg env now newId cache store
        (c2Req "GET" ("/todos/" ++ i) tok ct rb lim cur) _ i
        (routeOf_todoById "GET" i hi hs (Or.inl rfl)) hauth
      rw [lambda_get_todoById cfg.corsOrigin now newId ct rb lim cur store i hs]
      cases hF : App.todo_by_id cfg now
          (c2Req "GET" ("/todos/" ++ i) tok ct rb lim cur) i store with
      | error e =>
          rw [hF] at heq
          simp [stripRS, Except.map] at heq
      | ok rs =>
          rcases rs with ⟨r2, s2⟩
          rw [hF] at hf
          dsimp only at hf
          injection hf with e1 e2
          rw [e1, e2]
          rw [hF] at heq
          simp only [stripRS, Except.map, Except.ok.injEq] at heq
          try dsimp only
          exact heq
    · -- PUT
      subst hm
      have hauth := require_auth_ok cfg env now cache
        (c2Req "PUT" ("/todos/" ++ i) tok ct rb lim cur) tok claims rfl hfetch hdec htu hcl hgrp
      have heq := update_equiv cfg.corsOrigin cfg now i store tok ct rb lim cur rfl hrb
      have hf := flask_app_todoById_result cfg env now newId cache store
        (c2Req "PUT" ("/todos/" ++ i) tok ct rb lim cur) _ i
        (routeOf_todoById "PUT" i hi hs (Or.inr (Or.inl rfl))) hauth
      rw [lambda_put_todoById cfg.corsOrigin now newId ct rb lim cur store i hs]
      cases hH : Handler.handle_update_todo cfg.corsOrigin now
          (c2Ev "PUT" ("/todos/" ++ i) ct rb lim cur) i store with
      | error e =>
        cases hF : App.todo_by_id cfg now
            (c2Req "PUT" ("/todos/" ++ i) tok ct rb lim cur) i store with
        | error e2 =>
            rw [hF] at hf
            dsimp only at hf
            injection hf with e1 e2
            rw [e1, e2]
            rfl
        | ok rs =>
            rw [hH, hF] at heq
            simp [stripRS, Except.map] at heq
      | ok rs =>
        rcases rs with ⟨r1, s1⟩
        cases hF : App.todo_by_id cfg now
            (c2Req "PUT" ("/todos/" ++ i) tok ct rb lim cur) i store with
        | error e2 =>
            rw [hH, hF] at heq
            simp [stripRS, Except.map] at heq
        | ok rs2 =>
            rcases rs2 with ⟨r2, s2⟩
            rw [hF] at hf
            dsimp only at hf
            injection hf with e1 e2
            rw [e1, e2]
            rw [hH, hF] at heq
            simp only [stripRS, Except.map, Except.ok.injEq] at heq
            try dsimp only
            exact heq
    · -- DELETE
      subst hm
      have hauth := require_auth_ok cfg env now cache
        (c2Req "DELETE" ("/todos/" ++ i) tok ct rb lim cur) tok claims rfl hfetch hdec htu hcl hgrp
      have heq := delete_equiv cfg.corsOrigin cfg now i store tok ct rb lim cur rfl
      have hf := flask_app_todoById_result cfg env now newId cache store
        (c2Req "DELETE" ("/todos/" ++ i) tok ct rb lim cur) _ i
        (routeOf_todoById "DELETE" i hi hs (Or.inr (Or.inr (Or.inl rfl)))) hauth
      rw [lambda_delete_todoById cfg.corsOrigin now newId ct rb lim cur store i hs]
      cases hF : App.todo_by_id cfg now
          (c2Req "DELETE" ("/todos/" ++ i) tok ct rb lim cur) i store with
      | error e =>
          rw [hF] at heq
          simp [stripRS, Except.map] at heq
      | ok rs =>
          rcases rs with ⟨r2, s2⟩
          rw [hF] at hf
          dsimp only at hf
          injection hf with e1 e2
          rw [e1, e2]
          rw [hF] at heq
          simp only [stripRS, Except.map, Except.ok.injEq] at heq
          try dsimp only
          exact heq

/-- C2, counterexample: the same logical request — POST /todos with a valid
JSON body and no Authorization header — is rejected 401 by the Flask app
but served 201 by the Lambda handler, so the two shapes do not produce the
same outcome for every inbound request. -/
theorem c2_counterexample :
    ((App.flask_app {} { fetchOk := true, decode := fun _ => .ok {} } 7 "id1" {} []
        { method := "POST", path := "/todos", contentType := some "application/json",
          body := RawBody.wellFormed (Json.obj [("title", Json.str "Buy milk")]) }).1.statusCode
      = 401) ∧
    ((Handler.lambda_handler none 7 "id1"
        (Handler.jsonEvent "POST" "/todos" (Json.obj [("title", Json.str "Buy milk")])) []).1.statusCode
      = 201) :=
  ⟨rfl, rfl⟩

/-- C2 witness: the amended theorem applied at a concrete create request. -/
theorem c2_core_equivalence_witness :
    ((Handler.lambda_handler none 7 "id1"
        (c2Ev "POST" "/todos" (some "application/json")
          (RawBody.wellFormed (Json.obj [("title", Json.str "Buy milk")])) none none) []).1.stripOwner,
     stripOwnerStore (Handler.lambda_handler none 7 "id1"
        (c2Ev "POST" "/todos" (some "application/json")
          (RawBody.wellFormed (Json.obj [("title", Json.str "Buy milk")])) none none) []).2)
    = ((App.flask_app {} { fetchOk := true, decode := fun _ => .ok { tokenUse := some "access" } }
          7 "id1" {} []
          (c2Req "POST" "/todos" "tok" (some "application/json")
            (RawBody.wellFormed (Json.obj [("title", Json.str "Buy milk")])) none none)).1.stripOwner,
       stripOwnerStore ((App.flask_app {}
          { fetchOk := true, decode := fun _ => .ok { tokenUse := some "access" } }
          7 "id1" {} []
          (c2Req "POST" "/todos" "tok" (some "application/json")
            (RawBody.wellFormed (Json.obj [("title", Json.str "Buy milk")])) none none)).2.2)) :=
  c2_core_equivalence none {}
    { fetchOk := true, decode := fun _ => .ok { tokenUse := some "access" } }
    { tokenUse := some "access" } 7 "id1" {} [] "POST" "/todos" "tok"
    (some "application/json")
    (RawBody.wellFormed (Json.obj [("title", Json.str "Buy milk")])) none none
    rfl rfl rfl rfl rfl rfl
    (fun h => RawBody.noConfusion h)
    (Or.inr (Or.inr (Or.inl ⟨rfl, rfl⟩)))
